import Mathlib

/-!
The `configfile` command of lora-gateway-bridge.

A verification development for `cmd/lora-gateway-bridge/cmd/configfile.go`.
The command parses the constant `configTemplate` with Go's `html/template`
and executes it on the configuration model, writing to standard output.

The file has three parts: the Go library functions the command relies on
(`html/template` escaping in HTML text context, `fmt.Sprint`,
`time.Duration.String`, the key order of `range` over a map, the writes of
`Template.Execute`), the embedding of the template and of the command, and
the theorems.
-/

namespace GatewayBridge

/-- A Go string, as the sequence of its Unicode code points. -/
abbrev GoString := List Char

/-! ## Go library: `time.Duration.String` -/

/-- A `time.Duration`: a signed 64-bit count of nanoseconds. -/
structure Duration where
  nanoseconds : Int
  deriving DecidableEq, Repr

/-- The byte `byte(digit) + '0'`. -/
def digitByte (digit : Nat) : Char := Char.ofNat (48 + digit)

/-- The loop of `time.fmtFrac`: `prec` low digits of `v` are moved in front of
`buf`, trailing zeros being dropped. -/
def fmtFracLoop : Nat → GoString → Nat → Bool → GoString × Nat × Bool
  | 0, buf, v, print => (buf, v, print)
  | prec + 1, buf, v, print =>
    let digit := v % 10
    let print := print || digit != 0
    fmtFracLoop prec (if print then digitByte digit :: buf else buf) (v / 10) print

/-- Go `time.fmtFrac`: formats the fraction of `v / 10^prec` in front of `buf`,
omitting trailing zeros and the decimal point when the fraction is zero;
returns the buffer and `v / 10^prec`. -/
def fmtFrac (buf : GoString) (v prec : Nat) : GoString × Nat :=
  let r := fmtFracLoop prec buf v false
  (if r.2.2 then '.' :: r.1 else r.1, r.2.1)

/-- Go `time.fmtInt`: the decimal digits of `v` in front of `buf`. -/
def fmtInt (buf : GoString) (v : Nat) : GoString := Nat.toDigits 10 v ++ buf

def Nanosecond : Nat := 1
def Microsecond : Nat := 1000 * Nanosecond
def Millisecond : Nat := 1000 * Microsecond
def Second : Nat := 1000 * Millisecond

/-- The body of Go `time.Duration.format` once the magnitude `u` and the sign
`neg` of the duration are known. The buffer is filled from its end, modelled
by prepending. A duration below one second uses the units `ns`, `µs`, `ms`;
zero is `0s`. -/
def formatMagnitude (u : Nat) (neg : Bool) : GoString :=
  let sign (w : GoString) : GoString := if neg then '-' :: w else w
  if u < Second then
    if u = 0 then ['0', 's']
    else if u < Microsecond then
      let r := fmtFrac ['n', 's'] u 0
      sign (fmtInt r.1 r.2)
    else if u < Millisecond then
      let r := fmtFrac ['µ', 's'] u 3
      sign (fmtInt r.1 r.2)
    else
      let r := fmtFrac ['m', 's'] u 6
      sign (fmtInt r.1 r.2)
  else
    let r := fmtFrac ['s'] u 9
    let w := fmtInt r.1 (r.2 % 60)
    let u := r.2 / 60
    if u > 0 then
      let w := fmtInt ('m' :: w) (u % 60)
      let u := u / 60
      if u > 0 then sign (fmtInt ('h' :: w) u) else sign w
    else sign w

/-- Go `time.Duration.String` (through `Duration.format`): the duration as
`72h3m0.5s`. `u := uint64(d)`, negated modulo `2^64` when `d < 0`. -/
def Duration.String (d : Duration) : GoString :=
  let u0 : Nat := (d.nanoseconds % 2 ^ 64).toNat
  let neg : Bool := decide (d.nanoseconds < 0)
  formatMagnitude (if neg then (2 ^ 64 - u0) % 2 ^ 64 else u0) neg

/-! ## Go library: `fmt.Sprint` and `html/template` escaping -/

/-- The values the template prints. -/
inductive Value where
  | str (s : GoString)
  | int (i : Int)
  | bool (b : Bool)
  | duration (d : Duration)

/-- Go `fmt.Sprint` of an integer: base 10, with a minus sign when negative. -/
def sprintInt (i : Int) : GoString :=
  if i < 0 then '-' :: Nat.toDigits 10 i.natAbs else Nat.toDigits 10 i.natAbs

/-- Go `html/template` `stringify` of one value: a string is taken as it is,
any other value goes through `fmt.Sprint` (a `Duration` is a `Stringer`). -/
def stringify : Value → GoString
  | .str s => s
  | .int i => sprintInt i
  | .bool b => if b then "true".toList else "false".toList
  | .duration d => d.String

/-- Go `html/template` `htmlReplacementTable`: the replacement of a rune, if
it has one. -/
def htmlReplacementTable (r : Char) : Option GoString :=
  if r = Char.ofNat 0 then some [Char.ofNat 0xFFFD]
  else if r = Char.ofNat 34 then some "&#34;".toList
  else if r = Char.ofNat 38 then some "&amp;".toList
  else if r = Char.ofNat 39 then some "&#39;".toList
  else if r = Char.ofNat 43 then some "&#43;".toList
  else if r = Char.ofNat 60 then some "&lt;".toList
  else if r = Char.ofNat 62 then some "&gt;".toList
  else none

/-- Go `html/template` `htmlReplacer` with `htmlReplacementTable`: every rune
that has a replacement is replaced, the others are copied. -/
def htmlReplacer : GoString → GoString
  | [] => []
  | r :: s =>
    (match htmlReplacementTable r with
      | some repl => repl
      | none => [r]) ++ htmlReplacer s

/-- Go `html/template` `htmlEscaper`, the escaper the package appends to the
pipeline of an action that stands in HTML text context. -/
def htmlEscaper (v : Value) : GoString := htmlReplacer (stringify v)

/-! ## Go library: `range` over a map -/

/-- The entries of a Go map in the order `range` visits them in a template:
ascending key order. A map is given by its entries, in any order. -/
def sortKeys {V : Type} (m : List (GoString × V)) : List (GoString × V) :=
  m.insertionSort (fun a b => a.1 ≤ b.1)

/-! ## The configuration model -/

/-- Modelled from the spec: one per-gateway override record of
`Backend.SemtechUDP.Configuration` (package `internal/config` is not among the
sources; the fields are those the template reads). -/
structure GatewayConfiguration where
  GatewayID : GoString
  BaseFile : GoString
  OutputFile : GoString
  RestartCommand : GoString

/-- Modelled from the spec: `SemtechUDPConfig`, the UDP packet-forwarder
settings: bind address, two boolean flags and the per-gateway overrides. -/
structure SemtechUDPConfig where
  UDPBind : GoString
  SkipCRCCheck : Bool
  FakeRxTime : Bool
  Configuration : List GatewayConfiguration

/-- Modelled from the spec: `BasicStationConfig`, the WebSocket backend
settings: bind address, TLS paths, verify-CN flag, three durations, region
and two integer frequency bounds. -/
structure BasicStationConfig where
  Bind : GoString
  TLSCert : GoString
  TLSKey : GoString
  CACert : GoString
  VerifyCN : Bool
  PingInterval : Duration
  ReadTimeout : Duration
  WriteTimeout : Duration
  Region : GoString
  FrequencyMin : Int
  FrequencyMax : Int

/-- Modelled from the spec: `Backend`; the Go field `Type` is `Type_` here,
`Type` being reserved. -/
structure Backend where
  Type_ : GoString
  SemtechUDP : SemtechUDPConfig
  BasicStation : BasicStationConfig

/-- Modelled from the spec: `GenericAuth`, generic MQTT credentials. -/
structure GenericAuth where
  Server : GoString
  Username : GoString
  Password : GoString
  QOS : Int
  CleanSession : Bool
  ClientID : GoString
  CACert : GoString
  TLSCert : GoString
  TLSKey : GoString

/-- Modelled from the spec: `GCPAuth`, Google Cloud IoT Core credentials. -/
structure GCPAuth where
  Server : GoString
  DeviceID : GoString
  ProjectID : GoString
  CloudRegion : GoString
  RegistryID : GoString
  JWTExpiration : Duration
  JWTKeyFile : GoString

/-- Modelled from the spec: `AzureAuth`, Azure IoT Hub credentials. -/
structure AzureAuth where
  DeviceConnectionString : GoString
  SASTokenExpiration : Duration
  DeviceID : GoString
  Hostname : GoString
  TLSCert : GoString
  TLSKey : GoString

/-- Modelled from the spec: `MQTTAuth`, the discriminator and the three
mechanism blocks; `Type_` stands for the Go field `Type`. -/
structure MQTTAuth where
  Type_ : GoString
  Generic : GenericAuth
  GCPCloudIoTCore : GCPAuth
  AzureIoTHub : AzureAuth

/-- Modelled from the spec: `MQTTConfig`. -/
structure MQTTConfig where
  EventTopicTemplate : GoString
  CommandTopicTemplate : GoString
  MaxReconnectInterval : Duration
  Auth : MQTTAuth

/-- Modelled from the spec: `Integration`. -/
structure Integration where
  Marshaler : GoString
  MQTT : MQTTConfig

/-- Modelled from the spec: the Prometheus part of `MetricsConfig`. -/
structure PrometheusConfig where
  EndpointEnabled : Bool
  Bind : GoString

/-- Modelled from the spec: `MetricsConfig`. -/
structure MetricsConfig where
  Prometheus : PrometheusConfig

/-- Modelled from the spec: the dynamic meta-data: two durations and the
mapping from key to command string, given by its entries. -/
structure DynamicMetaData where
  ExecutionInterval : Duration
  MaxExecutionDuration : Duration
  Commands : List (GoString × GoString)

/-- Modelled from the spec: `MetaData`; `Static` is a mapping from string to
string, given by its entries. -/
structure MetaData where
  Static : List (GoString × GoString)
  Dynamic : DynamicMetaData

/-- Modelled from the spec: one named command of `CommandsConfig`. -/
structure NamedCommand where
  MaxExecutionDuration : Duration
  Command : GoString

/-- Modelled from the spec: `CommandsConfig`, the mapping from name to
command, given by its entries. -/
structure CommandsConfig where
  Commands : List (GoString × NamedCommand)

/-- Modelled from the spec: the filters: the NetID list and the JoinEUI
ranges, each a pair of a low and a high bound. -/
structure Filters where
  NetIDs : List GoString
  JoinEUIs : List (GoString × GoString)

/-- Modelled from the spec: the `[general]` settings. -/
structure General where
  LogLevel : Int

/-- Modelled from the spec: `RootConfig`, the type of `config.C`. -/
structure RootConfig where
  General : General
  Filters : Filters
  Backend : Backend
  Integration : Integration
  Metrics : MetricsConfig
  MetaData : MetaData
  Commands : CommandsConfig

/-- A Go map holds one value per key: the keys of its entries are distinct. -/
def IsMap {V : Type} (m : List (GoString × V)) : Prop := (m.map Prod.fst).Nodup

instance {V : Type} (m : List (GoString × V)) : Decidable (IsMap m) :=
  inferInstanceAs (Decidable (m.map Prod.fst).Nodup)

/-! ## The template text -/

/-- One source line of template text, with its newline. -/
def ln (s : String) : GoString := s.toList ++ ['\n']

/-- Template text that stops before the end of its source line. -/
def frag (s : String) : GoString := s.toList

/-- A text node of the parsed template: the text between two actions. -/
def text (pieces : List GoString) : GoString := pieces.flatten

/-- Template text, source lines 13 to 15. -/
def T00 : GoString := text [
  ln "[general]",
  ln "# debug=5, info=4, warning=3, error=2, fatal=1, panic=0",
  frag "log_level = "]

/-- Template text, source lines 15 to 35. -/
def T01 : GoString := text [
  ln "",
  ln "",
  ln "",
  ln "# Filters.",
  ln "#",
  ln "# These can be used to filter LoRaWAN frames to reduce bandwith usage between",
  ln "# the gateway and LoRa Gateway Bride. Depending the used backend, filtering",
  ln "# will be performed by the Packet Forwarder or LoRa Gateway Bridge.",
  ln "[filters]",
  ln "",
  ln "# NetIDs filters.",
  ln "#",
  ln "# The configured NetIDs will be used to filter uplink data frames.",
  ln "# When left blank, no filtering will be performed on NetIDs.",
  ln "#",
  ln "# Example:",
  ln "# net_ids=[",
  ln "#   \"000000\",",
  ln "#   \"000001\",",
  ln "# ]",
  frag "net_ids=["]

/-- Template text, source lines 35 to 36. -/
def T02 : GoString := text [
  ln "",
  frag "  \""]

/-- Template text, source lines 36 to 36. -/
def T03 : GoString := text [
  frag "\","]

/-- Template text, source lines 36 to 49. -/
def T04 : GoString := text [
  ln "",
  ln "]",
  ln "",
  ln "# JoinEUI filters.",
  ln "#",
  ln "# The configured JoinEUI ranges will be used to filter join-requests.",
  ln "# When left blank, no filtering will be performed on JoinEUIs.",
  ln "#",
  ln "# Example:",
  ln "# join_euis=[",
  ln "#   [\"0000000000000000\", \"00000000000000ff\"],",
  ln "#   [\"000000000000ff00\", \"000000000000ffff\"],",
  ln "# ]",
  frag "join_euis=["]

/-- Template text, source lines 49 to 50. -/
def T05 : GoString := text [
  ln "",
  frag "  [\""]

/-- Template text, source lines 50 to 50. -/
def T06 : GoString := text [
  frag "\", \""]

/-- Template text, source lines 50 to 50. -/
def T07 : GoString := text [
  frag "\"],"]

/-- Template text, source lines 50 to 62. -/
def T08 : GoString := text [
  ln "",
  ln "]",
  ln "",
  ln "",
  ln "# Gateway backend configuration.",
  ln "[backend]",
  ln "",
  ln "# Backend type.",
  ln "#",
  ln "# Valid options are:",
  ln "#   * semtech_udp",
  ln "#   * basic_station",
  frag "type=\""]

/-- Template text, source lines 62 to 74. -/
def T09 : GoString := text [
  ln "\"",
  ln "",
  ln "",
  ln "  # Semtech UDP packet-forwarder backend.",
  ln "  [backend.semtech_udp]",
  ln "",
  ln "  # ip:port to bind the UDP listener to",
  ln "  #",
  ln "  # Example: 0.0.0.0:1700 to listen on port 1700 for all network interfaces.",
  ln "  # This is the listeren to which the packet-forwarder forwards its data",
  ln "  # so make sure the 'serv_port_up' and 'serv_port_down' from your",
  ln "  # packet-forwarder matches this port.",
  frag "  udp_bind = \""]

/-- Template text, source lines 74 to 80. -/
def T10 : GoString := text [
  ln "\"",
  ln "",
  ln "  # Skip the CRC status-check of received packets",
  ln "  #",
  ln "  # This is only has effect when the packet-forwarder is configured to forward",
  ln "  # LoRa frames with CRC errors.",
  frag "  skip_crc_check = "]

/-- Template text, source lines 80 to 86. -/
def T11 : GoString := text [
  ln "",
  ln "",
  ln "  # Fake RX timestamp.",
  ln "  #",
  ln "  # Fake the RX time when the gateway does not have GPS, in which case",
  ln "  # the time would otherwise be unset.",
  frag "  fake_rx_time="]

/-- Template text, source lines 86 to 88. -/
def T12 : GoString := text [
  ln "",
  ln ""]

/-- Template text, source lines 88 to 90. -/
def T13 : GoString := text [
  ln "",
  ln "    [[backend.semtech_udp.configuration]]",
  frag "    gateway_id=\""]

/-- Template text, source lines 90 to 91. -/
def T14 : GoString := text [
  ln "\"",
  frag "    base_file=\""]

/-- Template text, source lines 91 to 92. -/
def T15 : GoString := text [
  ln "\"",
  frag "    output_file=\""]

/-- Template text, source lines 92 to 93. -/
def T16 : GoString := text [
  ln "\"",
  frag "    restart_command=\""]

/-- Template text, source lines 93 to 94. -/
def T17 : GoString := text [
  ln "\""]

/-- Template text, source lines 94 to 100. -/
def T18 : GoString := text [
  ln "",
  ln "",
  ln "  # Basic Station backend.",
  ln "  [backend.basic_station]",
  ln "",
  ln "  # ip:port to bind the Websocket listener to.",
  frag "  bind=\""]

/-- Template text, source lines 100 to 106. -/
def T19 : GoString := text [
  ln "\"",
  ln "",
  ln "  # TLS certificate and key files.",
  ln "  #",
  ln "  # When set, the websocket listener will use TLS to secure the connections",
  ln "  # between the gateways and LoRa Gateway Bridge (optional).",
  frag "  tls_cert=\""]

/-- Template text, source lines 106 to 107. -/
def T20 : GoString := text [
  ln "\"",
  frag "  tls_key=\""]

/-- Template text, source lines 107 to 113. -/
def T21 : GoString := text [
  ln "\"",
  ln "",
  ln "  # TLS CA certificate.",
  ln "  #",
  ln "  # When configured, LoRa Gateway Bridge will validate that the client",
  ln "  # certificate of the gateway has been signed by this CA certificate.",
  frag "  ca_cert=\""]

/-- Template text, source lines 113 to 119. -/
def T22 : GoString := text [
  ln "\"",
  ln "",
  ln "  # Verify client vertificate CommonName",
  ln "  #",
  ln "  # Require that the CommonName on the client certificate matches",
  ln "  # the EUI that the gateway is claiming to be.",
  frag "  verify_cn="]

/-- Template text, source lines 119 to 122. -/
def T23 : GoString := text [
  ln "",
  ln "",
  ln "  # Ping interval.",
  frag "  ping_interval=\""]

/-- Template text, source lines 122 to 127. -/
def T24 : GoString := text [
  ln "\"",
  ln "",
  ln "  # Read timeout.",
  ln "  #",
  ln "  # This interval must be greater than the configured ping interval.",
  frag "  read_timeout=\""]

/-- Template text, source lines 127 to 130. -/
def T25 : GoString := text [
  ln "\"",
  ln "",
  ln "  # Write timeout.",
  frag "  write_timeout=\""]

/-- Template text, source lines 130 to 136. -/
def T26 : GoString := text [
  ln "\"",
  ln "",
  ln "  # Region.",
  ln "  #",
  ln "  # Please refer to the LoRaWAN Regional Parameters specification",
  ln "  # for the complete list of common region names.",
  frag "  region=\""]

/-- Template text, source lines 136 to 139. -/
def T27 : GoString := text [
  ln "\"",
  ln "",
  ln "  # Minimal frequency (Hz).",
  frag "  frequency_min="]

/-- Template text, source lines 139 to 142. -/
def T28 : GoString := text [
  ln "",
  ln "",
  ln "  # Maximum frequency (Hz).",
  frag "  frequency_max="]

/-- Template text, source lines 142 to 152. -/
def T29 : GoString := text [
  ln "",
  ln "",
  ln "",
  ln "# Integration configuration.",
  ln "[integration]",
  ln "# Payload marshaler.",
  ln "#",
  ln "# This defines how the MQTT payloads are encoded. Valid options are:",
  ln "# * protobuf:  Protobuf encoding (this will become the LoRa Gateway Bridge v3 default)",
  ln "# * json:      JSON encoding (easier for debugging, but less compact than 'protobuf')",
  frag "marshaler=\""]

/-- Template text, source lines 152 to 157. -/
def T30 : GoString := text [
  ln "\"",
  ln "",
  ln "  # MQTT integration configuration.",
  ln "  [integration.mqtt]",
  ln "  # Event topic template.",
  frag "  event_topic_template=\""]

/-- Template text, source lines 157 to 160. -/
def T31 : GoString := text [
  ln "\"",
  ln "",
  ln "  # Command topic template.",
  frag "  command_topic_template=\""]

/-- Template text, source lines 160 to 164. -/
def T32 : GoString := text [
  ln "\"",
  ln "",
  ln "  # Maximum interval that will be waited between reconnection attempts when connection is lost.",
  ln "  # Valid units are 'ms', 's', 'm', 'h'. Note that these values can be combined, e.g. '24h30m15s'.",
  frag "  max_reconnect_interval=\""]

/-- Template text, source lines 164 to 172. -/
def T33 : GoString := text [
  ln "\"",
  ln "",
  ln "",
  ln "  # MQTT authentication.",
  ln "  [integration.mqtt.auth]",
  ln "  # Type defines the MQTT authentication type to use.",
  ln "  #",
  ln "  # Set this to the name of one of the sections below.",
  frag "  type=\""]

/-- Template text, source lines 172 to 177. -/
def T34 : GoString := text [
  ln "\"",
  ln "",
  ln "    # Generic MQTT authentication.",
  ln "    [integration.mqtt.auth.generic]",
  ln "    # MQTT server (e.g. scheme://host:port where scheme is tcp, ssl or ws)",
  frag "    server=\""]

/-- Template text, source lines 177 to 180. -/
def T35 : GoString := text [
  ln "\"",
  ln "",
  ln "    # Connect with the given username (optional)",
  frag "    username=\""]

/-- Template text, source lines 180 to 183. -/
def T36 : GoString := text [
  ln "\"",
  ln "",
  ln "    # Connect with the given password (optional)",
  frag "    password=\""]

/-- Template text, source lines 183 to 193. -/
def T37 : GoString := text [
  ln "\"",
  ln "",
  ln "    # Quality of service level",
  ln "    #",
  ln "    # 0: at most once",
  ln "    # 1: at least once",
  ln "    # 2: exactly once",
  ln "    #",
  ln "    # Note: an increase of this value will decrease the performance.",
  ln "    # For more information: https://www.hivemq.com/blog/mqtt-essentials-part-6-mqtt-quality-of-service-levels",
  frag "    qos="]

/-- Template text, source lines 193 to 200. -/
def T38 : GoString := text [
  ln "",
  ln "",
  ln "    # Clean session",
  ln "    #",
  ln "    # Set the \"clean session\" flag in the connect message when this client",
  ln "    # connects to an MQTT broker. By setting this flag you are indicating",
  ln "    # that no messages saved by the broker for this client should be delivered.",
  frag "    clean_session="]

/-- Template text, source lines 200 to 207. -/
def T39 : GoString := text [
  ln "",
  ln "",
  ln "    # Client ID",
  ln "    #",
  ln "    # Set the client id to be used by this client when connecting to the MQTT",
  ln "    # broker. A client id must be no longer than 23 characters. When left blank,",
  ln "    # a random id will be generated. This requires clean_session=true.",
  frag "    client_id=\""]

/-- Template text, source lines 207 to 214. -/
def T40 : GoString := text [
  ln "\"",
  ln "",
  ln "    # CA certificate file (optional)",
  ln "    #",
  ln "    # Use this when setting up a secure connection (when server uses ssl://...)",
  ln "    # but the certificate used by the server is not trusted by any CA certificate",
  ln "    # on the server (e.g. when self generated).",
  frag "    ca_cert=\""]

/-- Template text, source lines 214 to 217. -/
def T41 : GoString := text [
  ln "\"",
  ln "",
  ln "    # mqtt TLS certificate file (optional)",
  frag "    tls_cert=\""]

/-- Template text, source lines 217 to 220. -/
def T42 : GoString := text [
  ln "\"",
  ln "",
  ln "    # mqtt TLS key file (optional)",
  frag "    tls_key=\""]

/-- Template text, source lines 220 to 230. -/
def T43 : GoString := text [
  ln "\"",
  ln "",
  ln "",
  ln "    # Google Cloud Platform Cloud IoT Core authentication.",
  ln "    #",
  ln "    # Please note that when using this authentication type, the MQTT topics",
  ln "    # will be automatically set to match the MQTT topics as expected by",
  ln "    # Cloud IoT Core.",
  ln "    [integration.mqtt.auth.gcp_cloud_iot_core]",
  ln "    # MQTT server.",
  frag "    server=\""]

/-- Template text, source lines 230 to 233. -/
def T44 : GoString := text [
  ln "\"",
  ln "",
  ln "    # Google Cloud IoT Core Device id.",
  frag "    device_id=\""]

/-- Template text, source lines 233 to 236. -/
def T45 : GoString := text [
  ln "\"",
  ln "",
  ln "    # Google Cloud project id.",
  frag "    project_id=\""]

/-- Template text, source lines 236 to 239. -/
def T46 : GoString := text [
  ln "\"",
  ln "",
  ln "    # Google Cloud region.",
  frag "    cloud_region=\""]

/-- Template text, source lines 239 to 242. -/
def T47 : GoString := text [
  ln "\"",
  ln "",
  ln "    # Google Cloud IoT registry id.",
  frag "    registry_id=\""]

/-- Template text, source lines 242 to 245. -/
def T48 : GoString := text [
  ln "\"",
  ln "",
  ln "    # JWT token expiration time.",
  frag "    jwt_expiration=\""]

/-- Template text, source lines 245 to 255. -/
def T49 : GoString := text [
  ln "\"",
  ln "",
  ln "    # JWT token key-file.",
  ln "    #",
  ln "    # Example command to generate a key-pair:",
  ln "    #  $ ssh-keygen -t rsa -b 4096 -f private-key.pem",
  ln "    #  $ openssl rsa -in private-key.pem -pubout -outform PEM -out public-key.pem",
  ln "    #",
  ln "    # Then point the setting below to the private-key.pem and associate the",
  ln "    # public-key.pem with this device / gateway in Google Cloud IoT Core.",
  frag "    jwt_key_file=\""]

/-- Template text, source lines 255 to 268. -/
def T50 : GoString := text [
  ln "\"",
  ln "",
  ln "",
  ln "    # Azure IoT Hub",
  ln "    #",
  ln "    # This setting will preset uplink and downlink topics that will only",
  ln "    # work with Azure IoT Hub service.",
  ln "    [integration.mqtt.auth.azure_iot_hub]",
  ln "",
  ln "    # Device connection string (symmetric key authentication).",
  ln "    #",
  ln "    # This connection string can be retrieved from the Azure IoT Hub device",
  ln "    # details when using the symmetric key authentication type.",
  frag "    device_connection_string=\""]

/-- Template text, source lines 268 to 275. -/
def T51 : GoString := text [
  ln "\"",
  ln "",
  ln "    # Token expiration (symmetric key authentication).",
  ln "    #",
  ln "    # LoRa Gateway Bridge will generate a SAS token with the given expiration.",
  ln "    # After the token has expired, it will generate a new one and trigger a",
  ln "    # re-connect (only for symmetric key authentication).",
  frag "    sas_token_expiration=\""]

/-- Template text, source lines 275 to 281. -/
def T52 : GoString := text [
  ln "\"",
  ln "",
  ln "    # Device ID (X.509 authentication).",
  ln "    #",
  ln "    # This will be automatically set when a device connection string is given.",
  ln "    # It must be set for X.509 authentication.",
  frag "    device_id=\""]

/-- Template text, source lines 281 to 288. -/
def T53 : GoString := text [
  ln "\"",
  ln "",
  ln "    # IoT Hub hostname (X.509 authentication).",
  ln "    #",
  ln "    # This will be automatically set when a device connection string is given.",
  ln "    # It must be set for X.509 authentication.",
  ln "    # Example: iot-hub-name.azure-devices.net",
  frag "    hostname=\""]

/-- Template text, source lines 288 to 294. -/
def T54 : GoString := text [
  ln "\"",
  ln "",
  ln "    # Client certificates (X.509 authentication).",
  ln "    #",
  ln "    # Configure the tls_cert (certificate file) and tls_key (private-key file)",
  ln "    # when the device is configured with X.509 authentication.",
  frag "    tls_cert=\""]

/-- Template text, source lines 294 to 295. -/
def T55 : GoString := text [
  ln "\"",
  frag "    tls_key=\""]

/-- Template text, source lines 295 to 307. -/
def T56 : GoString := text [
  ln "\"",
  ln "",
  ln "",
  ln "# Metrics configuration.",
  ln "[metrics]",
  ln "",
  ln "  # Metrics stored in Prometheus.",
  ln "  #",
  ln "  # These metrics expose information about the state of the LoRa Gateway Bridge",
  ln "  # instance like number of messages processed, number of function calls, etc.",
  ln "  [metrics.prometheus]",
  ln "  # Expose Prometheus metrics endpoint.",
  frag "  endpoint_enabled="]

/-- Template text, source lines 307 to 311. -/
def T57 : GoString := text [
  ln "",
  ln "",
  ln "  # The ip:port to bind the Prometheus metrics server to for serving the",
  ln "  # metrics endpoint.",
  frag "  bind=\""]

/-- Template text, source lines 311 to 326. -/
def T58 : GoString := text [
  ln "\"",
  ln "",
  ln "",
  ln "# Gateway meta-data.",
  ln "#",
  ln "# The meta-data will be added to every stats message sent by the LoRa Gateway",
  ln "# Bridge.",
  ln "[meta_data]",
  ln "",
  ln "  # Static.",
  ln "  #",
  ln "  # Static key (string) / value (string) meta-data.",
  ln "  [meta_data.static]",
  ln "  # Example:",
  ln "  # serial_number=\"A1B21234\"",
  frag "  "]

/-- Template text, source lines 326 to 327. -/
def T59 : GoString := text [
  ln "",
  frag "  "]

/-- Template text, source lines 327 to 327. -/
def T60 : GoString := text [
  frag "=\""]

/-- Template text, source lines 327 to 328. -/
def T61 : GoString := text [
  ln "\"",
  frag "  "]

/-- Template text, source lines 328 to 339. -/
def T62 : GoString := text [
  ln "",
  ln "",
  ln "",
  ln "  # Dynamic meta-data.",
  ln "  #",
  ln "  # Dynamic meta-data is retrieved by executing external commands.",
  ln "  # This makes it possible to for example execute an external command to",
  ln "  # read the gateway temperature.",
  ln "  [meta_data.dynamic]",
  ln "",
  ln "  # Execution interval of the commands.",
  frag "  execution_interval=\""]

/-- Template text, source lines 339 to 342. -/
def T63 : GoString := text [
  ln "\"",
  ln "",
  ln "  # Max. execution duration.",
  frag "  max_execution_duration=\""]

/-- Template text, source lines 342 to 353. -/
def T64 : GoString := text [
  ln "\"",
  ln "",
  ln "  # Commands to execute.",
  ln "  #",
  ln "  # The value of the stdout will be used as the key value (string).",
  ln "  # In case the command failed, it is ignored. In case the same key is defined",
  ln "  # both as static and dynamic, the dynamic value has priority (as long as the)",
  ln "  # command does not fail.",
  ln "  [meta_data.dynamic.commands]",
  ln "  # Example:",
  ln "  # temperature=\"/opt/gateway-temperature/gateway-temperature.sh\"",
  frag "  "]

/-- Template text, source lines 353 to 354. -/
def T65 : GoString := text [
  ln "",
  frag "  "]

/-- Template text, source lines 354 to 354. -/
def T66 : GoString := text [
  frag "=\""]

/-- Template text, source lines 354 to 355. -/
def T67 : GoString := text [
  ln "\"",
  frag "  "]

/-- Template text, source lines 355 to 366. -/
def T68 : GoString := text [
  ln "",
  ln "",
  ln "# Executable commands.",
  ln "#",
  ln "# The configured commands can be triggered by sending a message to the",
  ln "# LoRa Gateway Bridge.",
  ln "[commands]",
  ln "  # Example:",
  ln "  # [commands.commands.reboot]",
  ln "  # max_execution_duration=\"1s\"",
  ln "  # command=\"/usr/bin/reboot\""]

/-- Template text, source lines 366 to 367. -/
def T69 : GoString := text [
  ln "",
  frag "  [commands.commands."]

/-- Template text, source lines 367 to 368. -/
def T70 : GoString := text [
  ln "]",
  frag "  max_execution_duration=\""]

/-- Template text, source lines 368 to 369. -/
def T71 : GoString := text [
  ln "\"",
  frag "  command=\""]

/-- Template text, source lines 369 to 370. -/
def T72 : GoString := text [
  ln "\""]

/-- Template text, source lines 370 to 371. -/
def T73 : GoString := text [
  ln ""]

/-! ## The template and the command

`configTemplate c` is the sequence of writes `t.Execute` performs on the model
`c`: one per text node and one per printed action, in template order. Every
action stands in HTML text context (the template text holds no `<`), so its
pipeline ends in `htmlEscaper`. -/

/-- Source lines 13 to 35: `[general]` and the head of `[filters]`. -/
def tmplGeneral (c : RootConfig) : List GoString :=
  [T00,
   htmlEscaper (.int c.General.LogLevel),
   T01]

/-- Source lines 35 to 36: `range $index, $elm := .Filters.NetIDs`. -/
def tmplNetIDs (c : RootConfig) : List GoString :=
  c.Filters.NetIDs.flatMap (fun elm =>
    [T02,
     htmlEscaper (.str elm),
     T03])

/-- Source lines 49 to 50: `range $index, $elm := .Filters.JoinEUIs`, with
`index $elm 0` and `index $elm 1`. -/
def tmplJoinEUIs (c : RootConfig) : List GoString :=
  c.Filters.JoinEUIs.flatMap (fun elm =>
    [T05,
     htmlEscaper (.str elm.1),
     T06,
     htmlEscaper (.str elm.2),
     T07])

/-- Source lines 50 to 88: `[backend]` and `[backend.semtech_udp]`. -/
def tmplBackend (c : RootConfig) : List GoString :=
  [T08,
   htmlEscaper (.str c.Backend.Type_),
   T09,
   htmlEscaper (.str c.Backend.SemtechUDP.UDPBind),
   T10,
   htmlEscaper (.bool c.Backend.SemtechUDP.SkipCRCCheck),
   T11,
   htmlEscaper (.bool c.Backend.SemtechUDP.FakeRxTime),
   T12]

/-- Source lines 88 to 94:
`range $i, $config := .Backend.SemtechUDP.Configuration`. -/
def tmplConfiguration (c : RootConfig) : List GoString :=
  c.Backend.SemtechUDP.Configuration.flatMap (fun config =>
    [T13,
     htmlEscaper (.str config.GatewayID),
     T14,
     htmlEscaper (.str config.BaseFile),
     T15,
     htmlEscaper (.str config.OutputFile),
     T16,
     htmlEscaper (.str config.RestartCommand),
     T17])

/-- Source lines 94 to 142: `[backend.basic_station]`. -/
def tmplBasicStation (c : RootConfig) : List GoString :=
  [T18,
   htmlEscaper (.str c.Backend.BasicStation.Bind),
   T19,
   htmlEscaper (.str c.Backend.BasicStation.TLSCert),
   T20,
   htmlEscaper (.str c.Backend.BasicStation.TLSKey),
   T21,
   htmlEscaper (.str c.Backend.BasicStation.CACert),
   T22,
   htmlEscaper (.bool c.Backend.BasicStation.VerifyCN),
   T23,
   htmlEscaper (.duration c.Backend.BasicStation.PingInterval),
   T24,
   htmlEscaper (.duration c.Backend.BasicStation.ReadTimeout),
   T25,
   htmlEscaper (.duration c.Backend.BasicStation.WriteTimeout),
   T26,
   htmlEscaper (.str c.Backend.BasicStation.Region),
   T27,
   htmlEscaper (.int c.Backend.BasicStation.FrequencyMin),
   T28,
   htmlEscaper (.int c.Backend.BasicStation.FrequencyMax)]

/-- Source lines 142 to 172: `[integration]`, `[integration.mqtt]` and
`[integration.mqtt.auth]`. -/
def tmplIntegration (c : RootConfig) : List GoString :=
  [T29,
   htmlEscaper (.str c.Integration.Marshaler),
   T30,
   htmlEscaper (.str c.Integration.MQTT.EventTopicTemplate),
   T31,
   htmlEscaper (.str c.Integration.MQTT.CommandTopicTemplate),
   T32,
   htmlEscaper (.duration c.Integration.MQTT.MaxReconnectInterval),
   T33,
   htmlEscaper (.str c.Integration.MQTT.Auth.Type_)]

/-- Source lines 172 to 220: `[integration.mqtt.auth.generic]`. -/
def tmplGeneric (c : RootConfig) : List GoString :=
  [T34,
   htmlEscaper (.str c.Integration.MQTT.Auth.Generic.Server),
   T35,
   htmlEscaper (.str c.Integration.MQTT.Auth.Generic.Username),
   T36,
   htmlEscaper (.str c.Integration.MQTT.Auth.Generic.Password),
   T37,
   htmlEscaper (.int c.Integration.MQTT.Auth.Generic.QOS),
   T38,
   htmlEscaper (.bool c.Integration.MQTT.Auth.Generic.CleanSession),
   T39,
   htmlEscaper (.str c.Integration.MQTT.Auth.Generic.ClientID),
   T40,
   htmlEscaper (.str c.Integration.MQTT.Auth.Generic.CACert),
   T41,
   htmlEscaper (.str c.Integration.MQTT.Auth.Generic.TLSCert),
   T42,
   htmlEscaper (.str c.Integration.MQTT.Auth.Generic.TLSKey)]

/-- Source lines 220 to 255: `[integration.mqtt.auth.gcp_cloud_iot_core]`. -/
def tmplGCPCloudIoTCore (c : RootConfig) : List GoString :=
  [T43,
   htmlEscaper (.str c.Integration.MQTT.Auth.GCPCloudIoTCore.Server),
   T44,
   htmlEscaper (.str c.Integration.MQTT.Auth.GCPCloudIoTCore.DeviceID),
   T45,
   htmlEscaper (.str c.Integration.MQTT.Auth.GCPCloudIoTCore.ProjectID),
   T46,
   htmlEscaper (.str c.Integration.MQTT.Auth.GCPCloudIoTCore.CloudRegion),
   T47,
   htmlEscaper (.str c.Integration.MQTT.Auth.GCPCloudIoTCore.RegistryID),
   T48,
   htmlEscaper (.duration c.Integration.MQTT.Auth.GCPCloudIoTCore.JWTExpiration),
   T49,
   htmlEscaper (.str c.Integration.MQTT.Auth.GCPCloudIoTCore.JWTKeyFile)]

/-- Source lines 255 to 295: `[integration.mqtt.auth.azure_iot_hub]`. -/
def tmplAzureIoTHub (c : RootConfig) : List GoString :=
  [T50,
   htmlEscaper (.str c.Integration.MQTT.Auth.AzureIoTHub.DeviceConnectionString),
   T51,
   htmlEscaper (.duration c.Integration.MQTT.Auth.AzureIoTHub.SASTokenExpiration),
   T52,
   htmlEscaper (.str c.Integration.MQTT.Auth.AzureIoTHub.DeviceID),
   T53,
   htmlEscaper (.str c.Integration.MQTT.Auth.AzureIoTHub.Hostname),
   T54,
   htmlEscaper (.str c.Integration.MQTT.Auth.AzureIoTHub.TLSCert),
   T55,
   htmlEscaper (.str c.Integration.MQTT.Auth.AzureIoTHub.TLSKey)]

/-- Source lines 295 to 326: `[metrics]`, `[metrics.prometheus]` and the head
of `[meta_data.static]`. -/
def tmplMetrics (c : RootConfig) : List GoString :=
  [T56,
   htmlEscaper (.bool c.Metrics.Prometheus.EndpointEnabled),
   T57,
   htmlEscaper (.str c.Metrics.Prometheus.Bind),
   T58]

/-- Source lines 326 to 328: `range $k, $v := .MetaData.Static`; the entry is
the pair of `$k` and `$v`. -/
def tmplStatic (c : RootConfig) : List GoString :=
  (sortKeys c.MetaData.Static).flatMap (fun kv =>
    [T59,
     htmlEscaper (.str kv.1),
     T60,
     htmlEscaper (.str kv.2),
     T61])

/-- Source lines 328 to 353: `[meta_data.dynamic]` and the head of
`[meta_data.dynamic.commands]`. -/
def tmplDynamic (c : RootConfig) : List GoString :=
  [T62,
   htmlEscaper (.duration c.MetaData.Dynamic.ExecutionInterval),
   T63,
   htmlEscaper (.duration c.MetaData.Dynamic.MaxExecutionDuration),
   T64]

/-- Source lines 353 to 355: `range $k, $v := .MetaData.Dynamic.Commands`. -/
def tmplDynamicCommands (c : RootConfig) : List GoString :=
  (sortKeys c.MetaData.Dynamic.Commands).flatMap (fun kv =>
    [T65,
     htmlEscaper (.str kv.1),
     T66,
     htmlEscaper (.str kv.2),
     T67])

/-- Source lines 366 to 370: `range $k, $v := .Commands.Commands`. -/
def tmplCommands (c : RootConfig) : List GoString :=
  (sortKeys c.Commands.Commands).flatMap (fun kv =>
    [T69,
     htmlEscaper (.str kv.1),
     T70,
     htmlEscaper (.duration kv.2.MaxExecutionDuration),
     T71,
     htmlEscaper (.str kv.2.Command),
     T72])

/-- The writes of `t.Execute(os.Stdout, config.C)` for the template
`configTemplate`, in order. -/
def configTemplate (c : RootConfig) : List GoString :=
  tmplGeneral c ++ tmplNetIDs c ++ [T04] ++ tmplJoinEUIs c ++
  tmplBackend c ++ tmplConfiguration c ++
  tmplBasicStation c ++ tmplIntegration c ++
  tmplGeneric c ++ tmplGCPCloudIoTCore c ++ tmplAzureIoTHub c ++
  tmplMetrics c ++ tmplStatic c ++
  tmplDynamic c ++ tmplDynamicCommands c ++ [T68] ++ tmplCommands c ++ [T73]

/-- The rendered document: what the writes amount to. -/
def render (c : RootConfig) : GoString := (configTemplate c).flatten

/-- An `io.Writer`: from its state, a write of a chunk either is accepted,
giving the next state, or fails with an error. -/
structure Writer (σ ε : Type) where
  write : σ → GoString → Except ε σ

/-- The outcome of an execution: the writes attempted, in order, and the
final state of the sink or the error that stopped the execution. -/
structure Outcome (σ ε : Type) where
  attempted : List GoString
  result : Except ε σ

/-- Go `text/template` execution on the writer: every node is written in
turn; a write error aborts the walk (`writeError` is raised and recovered in
`Execute`, which returns the error of the writer). -/
def execute {σ ε : Type} (w : Writer σ ε) : σ → List GoString → Outcome σ ε
  | s, [] => ⟨[], .ok s⟩
  | s, p :: ps =>
    match w.write s p with
    | .error e => ⟨[p], .error e⟩
    | .ok s1 =>
      let r := execute w s1 ps
      ⟨p :: r.attempted, r.result⟩

/-- An error wrapped by `errors.Wrap(err, message)`. -/
structure WrappedError (ε : Type) where
  message : String
  cause : ε

/-- The `RunE` function of `configCmd`: execute the template on the sink with
the model `c`; an error is wrapped, otherwise nil is returned. -/
def configCmd {σ ε : Type} (w : Writer σ ε) (s : σ) (c : RootConfig) :
    Outcome σ (WrappedError ε) :=
  let r := execute w s (configTemplate c)
  match r.result with
  | .error err => ⟨r.attempted, .error ⟨"execute config template error", err⟩⟩
  | .ok s1 => ⟨r.attempted, .ok s1⟩

/-! ## Specification vocabulary -/

/-- The lines `ls` occur in the document `d`, in this order and without
overlap: each one is preceded by a newline and followed by a newline (the
newline between two consecutive lines may be shared). -/
def LinesInOrder : List GoString → GoString → Prop
  | [], _ => True
  | l :: ls, d => ∃ a r, d = a ++ '\n' :: (l ++ r) ∧ r.head? = some '\n' ∧ LinesInOrder ls r

/-- Consecutive lines as one piece of text: the lines joined by newlines. -/
def linesBlock : List GoString → GoString
  | [] => []
  | [l] => l
  | l :: ls => l ++ '\n' :: linesBlock ls

/-- A string none of whose runes has a replacement in `htmlReplacementTable`:
the escaper leaves it as it is. -/
def Plain (s : GoString) : Prop := ∀ ch ∈ s, htmlReplacementTable ch = none

instance (s : GoString) : Decidable (Plain s) :=
  inferInstanceAs (Decidable (∀ ch ∈ s, htmlReplacementTable ch = none))

/-- A hexadecimal digit. -/
def isHexDigit (ch : Char) : Bool :=
  ch.isDigit || (decide ('a' ≤ ch) && decide (ch ≤ 'f')) || (decide ('A' ≤ ch) && decide (ch ≤ 'F'))

/-- A hex string, such as a NetID or a JoinEUI bound. -/
def IsHex (s : GoString) : Prop := ∀ ch ∈ s, isHexDigit ch = true

instance (s : GoString) : Decidable (IsHex s) :=
  inferInstanceAs (Decidable (∀ ch ∈ s, isHexDigit ch = true))

/-- A letter, a digit, or one of `_`, `-`, `.`, `/`. -/
def isNameChar (ch : Char) : Bool :=
  ch.isAlphanum || ch == '_' || ch == '-' || ch == '.' || ch == '/'

/-- A string made of letters, digits, `_`, `-`, `.` and `/`. -/
def IsName (s : GoString) : Prop := ∀ ch ∈ s, isNameChar ch = true

instance (s : GoString) : Decidable (IsName s) :=
  inferInstanceAs (Decidable (∀ ch ∈ s, isNameChar ch = true))

/-- A rune of a printed integer or duration: a digit, `.`, `-` or one of the
unit letters `n`, `s`, `µ`, `m`, `h`. -/
def isNumberChar (ch : Char) : Bool :=
  ch.isDigit || ch == '.' || ch == '-' || ch == 'n' || ch == 's' || ch == 'µ' ||
    ch == 'm' || ch == 'h'

/-- The text of a printed integer or duration. -/
def NumberText (s : GoString) : Prop := ∀ ch ∈ s, isNumberChar ch = true

/-- The number of positions of `d` at which `pat` starts. -/
def countOccurrences (pat : GoString) : GoString → Nat
  | [] => 0
  | ch :: d => (if pat.isPrefixOf (ch :: d) then 1 else 0) + countOccurrences pat d

/-- Decides whether `l`, preceded and followed by a newline, occurs in `d`. -/
def occursAsLine (l : GoString) : GoString → Bool
  | [] => false
  | ch :: d => if ch = '\n' ∧ (l ++ ['\n']).isPrefixOf d = true then true else occursAsLine l d

/-- The text nodes of the template, in source order. -/
def templateText : List GoString :=
  [T00, T01, T02, T03, T04, T05, T06, T07, T08, T09, T10, T11, T12, T13, T14, T15, T16, T17,
   T18, T19, T20, T21, T22, T23, T24, T25, T26, T27, T28, T29, T30, T31, T32, T33, T34, T35,
   T36, T37, T38, T39, T40, T41, T42, T43, T44, T45, T46, T47, T48, T49, T50, T51, T52, T53,
   T54, T55, T56, T57, T58, T59, T60, T61, T62, T63, T64, T65, T66, T67, T68, T69, T70, T71,
   T72, T73]

/-- The assignment line of every scalar field of the template, in template
order, for the model `c`: a string field shows its escaped value. -/
def scalarLines (c : RootConfig) : List GoString :=
  ["log_level = ".toList ++ sprintInt c.General.LogLevel,
   "type=\"".toList ++ htmlReplacer c.Backend.Type_ ++ "\"".toList,
   "  udp_bind = \"".toList ++ htmlReplacer c.Backend.SemtechUDP.UDPBind ++ "\"".toList,
   "  skip_crc_check = ".toList ++ stringify (.bool c.Backend.SemtechUDP.SkipCRCCheck),
   "  fake_rx_time=".toList ++ stringify (.bool c.Backend.SemtechUDP.FakeRxTime),
   "  bind=\"".toList ++ htmlReplacer c.Backend.BasicStation.Bind ++ "\"".toList,
   "  tls_cert=\"".toList ++ htmlReplacer c.Backend.BasicStation.TLSCert ++ "\"".toList,
   "  tls_key=\"".toList ++ htmlReplacer c.Backend.BasicStation.TLSKey ++ "\"".toList,
   "  ca_cert=\"".toList ++ htmlReplacer c.Backend.BasicStation.CACert ++ "\"".toList,
   "  verify_cn=".toList ++ stringify (.bool c.Backend.BasicStation.VerifyCN),
   "  ping_interval=\"".toList ++ c.Backend.BasicStation.PingInterval.String ++ "\"".toList,
   "  read_timeout=\"".toList ++ c.Backend.BasicStation.ReadTimeout.String ++ "\"".toList,
   "  write_timeout=\"".toList ++ c.Backend.BasicStation.WriteTimeout.String ++ "\"".toList,
   "  region=\"".toList ++ htmlReplacer c.Backend.BasicStation.Region ++ "\"".toList,
   "  frequency_min=".toList ++ sprintInt c.Backend.BasicStation.FrequencyMin,
   "  frequency_max=".toList ++ sprintInt c.Backend.BasicStation.FrequencyMax,
   "marshaler=\"".toList ++ htmlReplacer c.Integration.Marshaler ++ "\"".toList,
   "  event_topic_template=\"".toList ++ htmlReplacer c.Integration.MQTT.EventTopicTemplate ++ "\"".toList,
   "  command_topic_template=\"".toList ++ htmlReplacer c.Integration.MQTT.CommandTopicTemplate ++ "\"".toList,
   "  max_reconnect_interval=\"".toList ++ c.Integration.MQTT.MaxReconnectInterval.String ++ "\"".toList,
   "  type=\"".toList ++ htmlReplacer c.Integration.MQTT.Auth.Type_ ++ "\"".toList,
   "    server=\"".toList ++ htmlReplacer c.Integration.MQTT.Auth.Generic.Server ++ "\"".toList,
   "    username=\"".toList ++ htmlReplacer c.Integration.MQTT.Auth.Generic.Username ++ "\"".toList,
   "    password=\"".toList ++ htmlReplacer c.Integration.MQTT.Auth.Generic.Password ++ "\"".toList,
   "    qos=".toList ++ sprintInt c.Integration.MQTT.Auth.Generic.QOS,
   "    clean_session=".toList ++ stringify (.bool c.Integration.MQTT.Auth.Generic.CleanSession),
   "    client_id=\"".toList ++ htmlReplacer c.Integration.MQTT.Auth.Generic.ClientID ++ "\"".toList,
   "    ca_cert=\"".toList ++ htmlReplacer c.Integration.MQTT.Auth.Generic.CACert ++ "\"".toList,
   "    tls_cert=\"".toList ++ htmlReplacer c.Integration.MQTT.Auth.Generic.TLSCert ++ "\"".toList,
   "    tls_key=\"".toList ++ htmlReplacer c.Integration.MQTT.Auth.Generic.TLSKey ++ "\"".toList,
   "    server=\"".toList ++ htmlReplacer c.Integration.MQTT.Auth.GCPCloudIoTCore.Server ++ "\"".toList,
   "    device_id=\"".toList ++ htmlReplacer c.Integration.MQTT.Auth.GCPCloudIoTCore.DeviceID ++ "\"".toList,
   "    project_id=\"".toList ++ htmlReplacer c.Integration.MQTT.Auth.GCPCloudIoTCore.ProjectID ++ "\"".toList,
   "    cloud_region=\"".toList ++ htmlReplacer c.Integration.MQTT.Auth.GCPCloudIoTCore.CloudRegion ++ "\"".toList,
   "    registry_id=\"".toList ++ htmlReplacer c.Integration.MQTT.Auth.GCPCloudIoTCore.RegistryID ++ "\"".toList,
   "    jwt_expiration=\"".toList ++ c.Integration.MQTT.Auth.GCPCloudIoTCore.JWTExpiration.String ++ "\"".toList,
   "    jwt_key_file=\"".toList ++ htmlReplacer c.Integration.MQTT.Auth.GCPCloudIoTCore.JWTKeyFile ++ "\"".toList,
   "    device_connection_string=\"".toList ++ htmlReplacer c.Integration.MQTT.Auth.AzureIoTHub.DeviceConnectionString ++ "\"".toList,
   "    sas_token_expiration=\"".toList ++ c.Integration.MQTT.Auth.AzureIoTHub.SASTokenExpiration.String ++ "\"".toList,
   "    device_id=\"".toList ++ htmlReplacer c.Integration.MQTT.Auth.AzureIoTHub.DeviceID ++ "\"".toList,
   "    hostname=\"".toList ++ htmlReplacer c.Integration.MQTT.Auth.AzureIoTHub.Hostname ++ "\"".toList,
   "    tls_cert=\"".toList ++ htmlReplacer c.Integration.MQTT.Auth.AzureIoTHub.TLSCert ++ "\"".toList,
   "    tls_key=\"".toList ++ htmlReplacer c.Integration.MQTT.Auth.AzureIoTHub.TLSKey ++ "\"".toList,
   "  endpoint_enabled=".toList ++ stringify (.bool c.Metrics.Prometheus.EndpointEnabled),
   "  bind=\"".toList ++ htmlReplacer c.Metrics.Prometheus.Bind ++ "\"".toList,
   "  execution_interval=\"".toList ++ c.MetaData.Dynamic.ExecutionInterval.String ++ "\"".toList,
   "  max_execution_duration=\"".toList ++ c.MetaData.Dynamic.MaxExecutionDuration.String ++ "\"".toList]

/-- The model whose strings are empty, integers 0, booleans false, durations
zero and collections empty. -/
def zeroConfig : RootConfig where
  General := ⟨0⟩
  Filters := ⟨[], []⟩
  Backend := ⟨[], ⟨[], false, false, []⟩, ⟨[], [], [], [], false, ⟨0⟩, ⟨0⟩, ⟨0⟩, [], 0, 0⟩⟩
  Integration := ⟨[], ⟨[], [], ⟨0⟩,
    ⟨[], ⟨[], [], [], 0, false, [], [], [], []⟩, ⟨[], [], [], [], [], ⟨0⟩, []⟩,
      ⟨[], ⟨0⟩, [], [], [], []⟩⟩⟩⟩
  Metrics := ⟨⟨false, []⟩⟩
  MetaData := ⟨[], ⟨⟨0⟩, ⟨0⟩, []⟩⟩
  Commands := ⟨[]⟩

/-- The assignment lines of the scalar fields for the all-empty model. -/
def zeroLines : List GoString :=
  ["log_level = 0".toList,
   "type=\"\"".toList,
   "  udp_bind = \"\"".toList,
   "  skip_crc_check = false".toList,
   "  fake_rx_time=false".toList,
   "  bind=\"\"".toList,
   "  tls_cert=\"\"".toList,
   "  tls_key=\"\"".toList,
   "  ca_cert=\"\"".toList,
   "  verify_cn=false".toList,
   "  ping_interval=\"0s\"".toList,
   "  read_timeout=\"0s\"".toList,
   "  write_timeout=\"0s\"".toList,
   "  region=\"\"".toList,
   "  frequency_min=0".toList,
   "  frequency_max=0".toList,
   "marshaler=\"\"".toList,
   "  event_topic_template=\"\"".toList,
   "  command_topic_template=\"\"".toList,
   "  max_reconnect_interval=\"0s\"".toList,
   "  type=\"\"".toList,
   "    server=\"\"".toList,
   "    username=\"\"".toList,
   "    password=\"\"".toList,
   "    qos=0".toList,
   "    clean_session=false".toList,
   "    client_id=\"\"".toList,
   "    ca_cert=\"\"".toList,
   "    tls_cert=\"\"".toList,
   "    tls_key=\"\"".toList,
   "    server=\"\"".toList,
   "    device_id=\"\"".toList,
   "    project_id=\"\"".toList,
   "    cloud_region=\"\"".toList,
   "    registry_id=\"\"".toList,
   "    jwt_expiration=\"0s\"".toList,
   "    jwt_key_file=\"\"".toList,
   "    device_connection_string=\"\"".toList,
   "    sas_token_expiration=\"0s\"".toList,
   "    device_id=\"\"".toList,
   "    hostname=\"\"".toList,
   "    tls_cert=\"\"".toList,
   "    tls_key=\"\"".toList,
   "  endpoint_enabled=false".toList,
   "  bind=\"\"".toList,
   "  execution_interval=\"0s\"".toList,
   "  max_execution_duration=\"0s\"".toList]

/-- The five variant blocks: each header followed by the assignment lines of
its keys, in template order. -/
def variantBlockLines (c : RootConfig) : List GoString :=
  ["  [backend.semtech_udp]".toList,
   "  udp_bind = \"".toList ++ htmlReplacer c.Backend.SemtechUDP.UDPBind ++ "\"".toList,
   "  skip_crc_check = ".toList ++ stringify (.bool c.Backend.SemtechUDP.SkipCRCCheck),
   "  fake_rx_time=".toList ++ stringify (.bool c.Backend.SemtechUDP.FakeRxTime),
   "  [backend.basic_station]".toList,
   "  bind=\"".toList ++ htmlReplacer c.Backend.BasicStation.Bind ++ "\"".toList,
   "  tls_cert=\"".toList ++ htmlReplacer c.Backend.BasicStation.TLSCert ++ "\"".toList,
   "  tls_key=\"".toList ++ htmlReplacer c.Backend.BasicStation.TLSKey ++ "\"".toList,
   "  ca_cert=\"".toList ++ htmlReplacer c.Backend.BasicStation.CACert ++ "\"".toList,
   "  verify_cn=".toList ++ stringify (.bool c.Backend.BasicStation.VerifyCN),
   "  ping_interval=\"".toList ++ c.Backend.BasicStation.PingInterval.String ++ "\"".toList,
   "  read_timeout=\"".toList ++ c.Backend.BasicStation.ReadTimeout.String ++ "\"".toList,
   "  write_timeout=\"".toList ++ c.Backend.BasicStation.WriteTimeout.String ++ "\"".toList,
   "  region=\"".toList ++ htmlReplacer c.Backend.BasicStation.Region ++ "\"".toList,
   "  frequency_min=".toList ++ sprintInt c.Backend.BasicStation.FrequencyMin,
   "  frequency_max=".toList ++ sprintInt c.Backend.BasicStation.FrequencyMax,
   "    [integration.mqtt.auth.generic]".toList,
   "    server=\"".toList ++ htmlReplacer c.Integration.MQTT.Auth.Generic.Server ++ "\"".toList,
   "    username=\"".toList ++ htmlReplacer c.Integration.MQTT.Auth.Generic.Username ++ "\"".toList,
   "    password=\"".toList ++ htmlReplacer c.Integration.MQTT.Auth.Generic.Password ++ "\"".toList,
   "    qos=".toList ++ sprintInt c.Integration.MQTT.Auth.Generic.QOS,
   "    clean_session=".toList ++ stringify (.bool c.Integration.MQTT.Auth.Generic.CleanSession),
   "    client_id=\"".toList ++ htmlReplacer c.Integration.MQTT.Auth.Generic.ClientID ++ "\"".toList,
   "    ca_cert=\"".toList ++ htmlReplacer c.Integration.MQTT.Auth.Generic.CACert ++ "\"".toList,
   "    tls_cert=\"".toList ++ htmlReplacer c.Integration.MQTT.Auth.Generic.TLSCert ++ "\"".toList,
   "    tls_key=\"".toList ++ htmlReplacer c.Integration.MQTT.Auth.Generic.TLSKey ++ "\"".toList,
   "    [integration.mqtt.auth.gcp_cloud_iot_core]".toList,
   "    server=\"".toList ++ htmlReplacer c.Integration.MQTT.Auth.GCPCloudIoTCore.Server ++ "\"".toList,
   "    device_id=\"".toList ++ htmlReplacer c.Integration.MQTT.Auth.GCPCloudIoTCore.DeviceID ++ "\"".toList,
   "    project_id=\"".toList ++ htmlReplacer c.Integration.MQTT.Auth.GCPCloudIoTCore.ProjectID ++ "\"".toList,
   "    cloud_region=\"".toList ++ htmlReplacer c.Integration.MQTT.Auth.GCPCloudIoTCore.CloudRegion ++ "\"".toList,
   "    registry_id=\"".toList ++ htmlReplacer c.Integration.MQTT.Auth.GCPCloudIoTCore.RegistryID ++ "\"".toList,
   "    jwt_expiration=\"".toList ++ c.Integration.MQTT.Auth.GCPCloudIoTCore.JWTExpiration.String ++ "\"".toList,
   "    jwt_key_file=\"".toList ++ htmlReplacer c.Integration.MQTT.Auth.GCPCloudIoTCore.JWTKeyFile ++ "\"".toList,
   "    [integration.mqtt.auth.azure_iot_hub]".toList,
   "    device_connection_string=\"".toList ++ htmlReplacer c.Integration.MQTT.Auth.AzureIoTHub.DeviceConnectionString ++ "\"".toList,
   "    sas_token_expiration=\"".toList ++ c.Integration.MQTT.Auth.AzureIoTHub.SASTokenExpiration.String ++ "\"".toList,
   "    device_id=\"".toList ++ htmlReplacer c.Integration.MQTT.Auth.AzureIoTHub.DeviceID ++ "\"".toList,
   "    hostname=\"".toList ++ htmlReplacer c.Integration.MQTT.Auth.AzureIoTHub.Hostname ++ "\"".toList,
   "    tls_cert=\"".toList ++ htmlReplacer c.Integration.MQTT.Auth.AzureIoTHub.TLSCert ++ "\"".toList,
   "    tls_key=\"".toList ++ htmlReplacer c.Integration.MQTT.Auth.AzureIoTHub.TLSKey ++ "\"".toList]

/-- The model `c` with the two discriminators replaced. -/
def withTypes (c : RootConfig) (backendType authType : GoString) : RootConfig :=
  { c with Backend.Type_ := backendType, Integration.MQTT.Auth.Type_ := authType }

/-- The model `c` with another generic MQTT password. -/
def withPassword (c : RootConfig) (password : GoString) : RootConfig :=
  { c with Integration.MQTT.Auth.Generic.Password := password }

/-- The model `c` with an empty `Backend.BasicStation.TLSCert`. -/
def withEmptyTLSCert (c : RootConfig) : RootConfig :=
  { c with Backend.BasicStation.TLSCert := [] }

/-- One entry of the `net_ids` array: newline, two spaces, the element in
double quotes, a comma. -/
def quotedEntry (e : GoString) : GoString := "\n  \"".toList ++ e ++ "\",".toList

/-- The `net_ids` fragment for the list `ids`. -/
def netIDsFragment (ids : List GoString) : GoString :=
  "net_ids=[".toList ++ (ids.map quotedEntry).flatten ++ "\n]".toList

/-- One entry of the `join_euis` array as the claim writes it: newline, two
spaces, the pair as `["low", "high"]` with the bounds as they are, a comma. -/
def pairEntry (e : GoString × GoString) : GoString :=
  "\n  ".toList ++ ("[\"".toList ++ e.1 ++ "\", \"".toList ++ e.2 ++ "\"]".toList) ++ ",".toList

/-- One entry of the `join_euis` array for any pair: as `pairEntry`, each
bound being written as the escaper rewrites it. -/
def renderedPair (e : GoString × GoString) : GoString :=
  "\n  ".toList ++
    ("[\"".toList ++ htmlReplacer e.1 ++ "\", \"".toList ++ htmlReplacer e.2 ++ "\"]".toList) ++
    ",".toList

/-- The `join_euis` fragment whose entries are `entries`, in this order. -/
def joinEUIsFragment (entries : List GoString) : GoString :=
  "join_euis=[".toList ++ entries.flatten ++ "\n]".toList

/-- The block of one per-gateway override record: a blank line, the header
and the four assignment lines. -/
def configurationBlock (g : GatewayConfiguration) : GoString :=
  "\n    [[backend.semtech_udp.configuration]]\n".toList ++
  "    gateway_id=\"".toList ++ g.GatewayID ++ "\"\n".toList ++
  "    base_file=\"".toList ++ g.BaseFile ++ "\"\n".toList ++
  "    output_file=\"".toList ++ g.OutputFile ++ "\"\n".toList ++
  "    restart_command=\"".toList ++ g.RestartCommand ++ "\"\n".toList

/-- The fields of an override record hold no rune the escaper rewrites. -/
def PlainRecord (g : GatewayConfiguration) : Prop :=
  Plain g.GatewayID ∧ Plain g.BaseFile ∧ Plain g.OutputFile ∧ Plain g.RestartCommand

instance (g : GatewayConfiguration) : Decidable (PlainRecord g) :=
  inferInstanceAs (Decidable (_ ∧ _ ∧ _ ∧ _))

/-- Two maps hold the same key to value associations. -/
def SameEntries {V : Type} (m1 m2 : List (GoString × V)) : Prop :=
  IsMap m1 ∧ IsMap m2 ∧ ∀ kv, kv ∈ m1 ↔ kv ∈ m2

/-- Two models with equal scalar fields, equal ordered lists and the same
associations in their three mapping fields. -/
structure SameContent (c1 c2 : RootConfig) : Prop where
  general : c1.General = c2.General
  filters : c1.Filters = c2.Filters
  backend : c1.Backend = c2.Backend
  integration : c1.Integration = c2.Integration
  metrics : c1.Metrics = c2.Metrics
  executionInterval :
    c1.MetaData.Dynamic.ExecutionInterval = c2.MetaData.Dynamic.ExecutionInterval
  maxExecutionDuration :
    c1.MetaData.Dynamic.MaxExecutionDuration = c2.MetaData.Dynamic.MaxExecutionDuration
  static : SameEntries c1.MetaData.Static c2.MetaData.Static
  dynamicCommands : SameEntries c1.MetaData.Dynamic.Commands c2.MetaData.Dynamic.Commands
  commands : SameEntries c1.Commands.Commands c2.Commands.Commands

/-- The state of the sink after the writes `ps`, when it accepts them all. -/
def acceptAll {σ ε : Type} (w : Writer σ ε) : σ → List GoString → Option σ
  | s, [] => some s
  | s, p :: ps =>
    match w.write s p with
    | .error _ => none
    | .ok s1 => acceptAll w s1 ps

/-- A sink that never fails and keeps what was written. -/
def bufferWriter : Writer GoString Unit := ⟨fun s p => .ok (s ++ p)⟩

/-- A sink that accepts `n` writes and then fails; its state counts the
writes accepted. -/
def closingWriter (n : Nat) : Writer Nat String :=
  ⟨fun s _ => if s < n then .ok (s + 1) else .error "file already closed"⟩

/-! ## Concrete models -/

/-- A model with two NetIDs. -/
def netIDsExample : RootConfig :=
  { zeroConfig with Filters.NetIDs := ["000000".toList, "000001".toList] }

/-- A model with two JoinEUI ranges: one of hex strings, one that is not. -/
def joinEUIsExample : RootConfig :=
  { zeroConfig with
    Filters.JoinEUIs := [("0000000000000000".toList, "00000000000000ff".toList),
      ("zz".toList, "y\"y".toList)] }

/-- A model with two per-gateway override records. -/
def overridesExample : RootConfig :=
  { zeroConfig with
    Backend.SemtechUDP.Configuration :=
      [⟨"0102030405060708".toList, "/etc/a/global_conf.json".toList,
        "/etc/a/local_conf.json".toList, "/etc/init.d/pf restart".toList⟩,
       ⟨"0807060504030201".toList, "/etc/b/global_conf.json".toList,
        "/etc/b/local_conf.json".toList, "/etc/init.d/pf restart".toList⟩] }

/-- A model with `MetaData.Static = {"serial_number": "A1B21234"}`. -/
def staticExample : RootConfig :=
  { zeroConfig with MetaData.Static := [("serial_number".toList, "A1B21234".toList)] }

/-- A model with `Commands.Commands = {"reboot": {1s, "/usr/bin/reboot"}}`. -/
def rebootExample : RootConfig :=
  { zeroConfig with
    Commands.Commands := [("reboot".toList, ⟨⟨1000000000⟩, "/usr/bin/reboot".toList⟩)] }

/-- A model whose static meta-data was supplied as `a`, then `b`. -/
def staticAB : RootConfig :=
  { zeroConfig with MetaData.Static := [("a".toList, "1".toList), ("b".toList, "2".toList)] }

/-- The same model with the static meta-data supplied as `b`, then `a`. -/
def staticBA : RootConfig :=
  { zeroConfig with MetaData.Static := [("b".toList, "2".toList), ("a".toList, "1".toList)] }

/-! ## Lemmas -/

section Lines

theorem linesInOrder_append_left (x : GoString) :
    ∀ {ls : List GoString} {d : GoString}, LinesInOrder ls d → LinesInOrder ls (x ++ d)
  | [], _, _ => trivial
  | _ :: _, _, ⟨a, r, hd, hr, hls⟩ =>
    ⟨x ++ a, r, by rw [hd, List.append_assoc], hr, hls⟩

theorem linesInOrder_cons_left (ch : Char) {ls : List GoString} {d : GoString}
    (h : LinesInOrder ls d) : LinesInOrder ls (ch :: d) :=
  linesInOrder_append_left [ch] h

theorem linesInOrder_hit1 {ls : List GoString} (p r : GoString)
    (h : LinesInOrder ls ('\n' :: r)) :
    LinesInOrder (p :: ls) ('\n' :: (p ++ '\n' :: r)) :=
  ⟨[], '\n' :: r, rfl, rfl, h⟩

theorem linesInOrder_hit2 {ls : List GoString} (p v r : GoString)
    (h : LinesInOrder ls ('\n' :: r)) :
    LinesInOrder ((p ++ v) :: ls) ('\n' :: (p ++ (v ++ '\n' :: r))) :=
  ⟨[], '\n' :: r, by simp, rfl, h⟩

theorem linesInOrder_hit3 {ls : List GoString} (p v s r : GoString)
    (h : LinesInOrder ls ('\n' :: r)) :
    LinesInOrder ((p ++ (v ++ s)) :: ls) ('\n' :: (p ++ (v ++ (s ++ '\n' :: r)))) :=
  ⟨[], '\n' :: r, by simp, rfl, h⟩

theorem ln_empty : ln "" = ['\n'] := rfl

theorem linesInOrder_nil (d : GoString) : LinesInOrder [] d := by
  unfold LinesInOrder; trivial

theorem linesInOrder_hit5 {ls : List GoString} (p k q v s r : GoString)
    (h : LinesInOrder ls ('\n' :: r)) :
    LinesInOrder ((p ++ (k ++ (q ++ (v ++ s)))) :: ls)
      ('\n' :: (p ++ (k ++ (q ++ (v ++ (s ++ '\n' :: r)))))) :=
  ⟨[], '\n' :: r, by simp, rfl, h⟩

theorem linesInOrder_sublist : ∀ {ls ls1 : List GoString}, ls1.Sublist ls →
    ∀ {d : GoString}, LinesInOrder ls d → LinesInOrder ls1 d
  | _, _, .slnil, _, h => h
  | _, _, .cons _ hs, _, ⟨_, _, hd, _, hls⟩ => by
    rw [hd, ← List.cons_append, ← List.append_assoc]
    exact linesInOrder_append_left _ (linesInOrder_sublist hs hls)
  | _, _, .cons₂ _ hs, _, ⟨a, r, hd, hr, hls⟩ =>
    ⟨a, r, hd, hr, linesInOrder_sublist hs hls⟩

end Lines

section Escaping

theorem htmlReplacer_of_plain : ∀ {s : GoString}, Plain s → htmlReplacer s = s
  | [], _ => rfl
  | ch :: s, h => by
    have h1 : htmlReplacementTable ch = none := h ch (List.mem_cons_self _ _)
    have h2 : Plain s := fun x hx => h x (List.mem_cons_of_mem _ hx)
    simp [htmlReplacer, h1, htmlReplacer_of_plain h2]

theorem htmlReplacementTable_eq_none {ch : Char}
    (h : ch ≠ Char.ofNat 0 ∧ ch ≠ Char.ofNat 34 ∧ ch ≠ Char.ofNat 38 ∧ ch ≠ Char.ofNat 39 ∧
      ch ≠ Char.ofNat 43 ∧ ch ≠ Char.ofNat 60 ∧ ch ≠ Char.ofNat 62) :
    htmlReplacementTable ch = none := by
  obtain ⟨h0, h1, h2, h3, h4, h5, h6⟩ := h
  simp only [htmlReplacementTable, h0, h1, h2, h3, h4, h5, h6, if_false]

theorem isHexDigit_plain {ch : Char} (h : isHexDigit ch = true) :
    htmlReplacementTable ch = none := by
  apply htmlReplacementTable_eq_none
  refine ⟨?_, ?_, ?_, ?_, ?_, ?_, ?_⟩ <;>
    (intro he; subst he; exact absurd h (by decide))

theorem isNameChar_plain {ch : Char} (h : isNameChar ch = true) :
    htmlReplacementTable ch = none := by
  apply htmlReplacementTable_eq_none
  refine ⟨?_, ?_, ?_, ?_, ?_, ?_, ?_⟩ <;>
    (intro he; subst he; exact absurd h (by decide))

theorem isNumberChar_plain {ch : Char} (h : isNumberChar ch = true) :
    htmlReplacementTable ch = none := by
  apply htmlReplacementTable_eq_none
  refine ⟨?_, ?_, ?_, ?_, ?_, ?_, ?_⟩ <;>
    (intro he; subst he; exact absurd h (by decide))

theorem plain_of_isHex {s : GoString} (h : IsHex s) : Plain s :=
  fun ch hch => isHexDigit_plain (h ch hch)

theorem plain_of_isName {s : GoString} (h : IsName s) : Plain s :=
  fun ch hch => isNameChar_plain (h ch hch)

theorem plain_of_numberText {s : GoString} (h : NumberText s) : Plain s :=
  fun ch hch => isNumberChar_plain (h ch hch)

theorem numberText_nil : NumberText [] := fun _ h => by simp at h

theorem numberText_cons {ch : Char} {s : GoString} (h1 : isNumberChar ch = true)
    (h2 : NumberText s) : NumberText (ch :: s) := by
  intro x hx
  rcases List.mem_cons.mp hx with rfl | hx
  · exact h1
  · exact h2 x hx

theorem numberText_append {s t : GoString} (h1 : NumberText s) (h2 : NumberText t) :
    NumberText (s ++ t) := by
  intro x hx
  rcases List.mem_append.mp hx with hx | hx
  · exact h1 x hx
  · exact h2 x hx

theorem digitChar_number : ∀ d : Nat, d < 10 → isNumberChar (Nat.digitChar d) = true := by
  decide

theorem digitByte_number : ∀ d : Nat, d < 10 → isNumberChar (digitByte d) = true := by
  decide

theorem toDigitsCore_number : ∀ (fuel n : Nat) (ds : GoString), NumberText ds →
    NumberText (Nat.toDigitsCore 10 fuel n ds)
  | 0, _, _, h => h
  | fuel + 1, n, ds, h => by
    have hd : NumberText (Nat.digitChar (n % 10) :: ds) :=
      numberText_cons (digitChar_number _ (Nat.mod_lt _ (by decide))) h
    unfold Nat.toDigitsCore
    by_cases h0 : n / 10 = 0
    · simp only [h0, if_true]; exact hd
    · simp only [h0, if_false]; exact toDigitsCore_number fuel (n / 10) _ hd

theorem toDigits_number (n : Nat) : NumberText (Nat.toDigits 10 n) :=
  toDigitsCore_number _ _ _ numberText_nil

theorem sprintInt_number (i : Int) : NumberText (sprintInt i) := by
  unfold sprintInt
  split
  · exact numberText_cons (by decide) (toDigits_number _)
  · exact toDigits_number _

theorem fmtInt_number {buf : GoString} (h : NumberText buf) (v : Nat) :
    NumberText (fmtInt buf v) :=
  numberText_append (toDigits_number v) h

theorem fmtFracLoop_number : ∀ (prec : Nat) (buf : GoString) (v : Nat) (p : Bool),
    NumberText buf → NumberText (fmtFracLoop prec buf v p).1
  | 0, _, _, _, h => h
  | prec + 1, buf, v, p, h => by
    unfold fmtFracLoop
    apply fmtFracLoop_number
    split
    · exact numberText_cons (digitByte_number _ (Nat.mod_lt _ (by decide))) h
    · exact h

theorem fmtFrac_number {buf : GoString} (h : NumberText buf) (v prec : Nat) :
    NumberText (fmtFrac buf v prec).1 := by
  unfold fmtFrac
  have := fmtFracLoop_number prec buf v false h
  dsimp only
  split
  · exact numberText_cons (by decide) this
  · exact this

theorem numberText_sign {w : GoString} (h : NumberText w) (neg : Bool) :
    NumberText (if neg = true then '-' :: w else w) := by
  split
  · exact numberText_cons (by decide) h
  · exact h

theorem numberText_unit {a b : Char} (ha : isNumberChar a = true)
    (hb : isNumberChar b = true) : NumberText [a, b] :=
  numberText_cons ha (numberText_cons hb numberText_nil)

theorem formatMagnitude_number (u : Nat) (neg : Bool) :
    NumberText (formatMagnitude u neg) := by
  have hn : NumberText ['n', 's'] := numberText_unit (by decide) (by decide)
  have hu : NumberText ['µ', 's'] := numberText_unit (by decide) (by decide)
  have hm : NumberText ['m', 's'] := numberText_unit (by decide) (by decide)
  have h0 : NumberText ['0', 's'] := numberText_unit (by decide) (by decide)
  have hs : NumberText (fmtInt (fmtFrac ['s'] u 9).1 ((fmtFrac ['s'] u 9).2 % 60)) :=
    fmtInt_number (fmtFrac_number (numberText_cons (by decide) numberText_nil) _ _) _
  have hm1 : isNumberChar 'm' = true := by decide
  have hmin := fmtInt_number (numberText_cons hm1 hs)
  unfold formatMagnitude
  dsimp only
  split
  · split
    · exact h0
    · split
      · exact numberText_sign (fmtInt_number (fmtFrac_number hn _ _) _) _
      · split
        · exact numberText_sign (fmtInt_number (fmtFrac_number hu _ _) _) _
        · exact numberText_sign (fmtInt_number (fmtFrac_number hm _ _) _) _
  · split
    · split
      · exact numberText_sign (fmtInt_number (numberText_cons (by decide) (hmin _)) _) _
      · exact numberText_sign (hmin _) _
    · exact numberText_sign hs _

theorem duration_number (d : Duration) : NumberText d.String := formatMagnitude_number _ _

theorem htmlEscaper_str (s : GoString) : htmlEscaper (.str s) = htmlReplacer s := rfl

theorem htmlEscaper_int (i : Int) : htmlEscaper (.int i) = sprintInt i :=
  htmlReplacer_of_plain (plain_of_numberText (sprintInt_number i))

theorem htmlEscaper_bool (b : Bool) : htmlEscaper (.bool b) = stringify (.bool b) := by
  cases b <;> decide

theorem htmlEscaper_duration (d : Duration) : htmlEscaper (.duration d) = d.String :=
  htmlReplacer_of_plain (plain_of_numberText (duration_number d))

end Escaping

section Completeness

set_option maxRecDepth 100000 in
set_option maxHeartbeats 4000000 in
theorem scalarLines_inOrder (c : RootConfig) : LinesInOrder (scalarLines c) (render c) := by
  simp only [render, configTemplate, tmplGeneral, tmplBackend, tmplBasicStation, tmplIntegration,
    tmplGeneric, tmplGCPCloudIoTCore, tmplAzureIoTHub, tmplMetrics, tmplDynamic, scalarLines,
    htmlEscaper_str, htmlEscaper_int, htmlEscaper_bool, htmlEscaper_duration]
  simp only [T00, T01, T04, T08, T09, T10, T11, T12, T18, T19, T20, T21, T22, T23, T24, T25, T26,
    T27, T28, T29, T30, T31, T32, T33, T34, T35, T36, T37, T38, T39, T40, T41, T42, T43, T44,
    T45, T46, T47, T48, T49, T50, T51, T52, T53, T54, T55, T56, T57, T58, T62, T63, T64, text,
    ln_empty]
  simp only [ln, frag, List.flatten_cons, List.flatten_nil, List.flatten_append,
    List.append_assoc, List.cons_append, List.nil_append, List.append_nil]
  iterate 64 (try (first
    | exact linesInOrder_nil _
    | apply linesInOrder_hit3
    | apply linesInOrder_hit2
    | apply linesInOrder_hit1
    | apply linesInOrder_append_left
    | apply linesInOrder_cons_left))
  iterate 64 (try (first
    | exact linesInOrder_nil _
    | apply linesInOrder_hit3
    | apply linesInOrder_hit2
    | apply linesInOrder_hit1
    | apply linesInOrder_append_left
    | apply linesInOrder_cons_left))
  iterate 64 (try (first
    | exact linesInOrder_nil _
    | apply linesInOrder_hit3
    | apply linesInOrder_hit2
    | apply linesInOrder_hit1
    | apply linesInOrder_append_left
    | apply linesInOrder_cons_left))
  iterate 64 (try (first
    | exact linesInOrder_nil _
    | apply linesInOrder_hit3
    | apply linesInOrder_hit2
    | apply linesInOrder_hit1
    | apply linesInOrder_append_left
    | apply linesInOrder_cons_left))
  iterate 64 (try (first
    | exact linesInOrder_nil _
    | apply linesInOrder_hit3
    | apply linesInOrder_hit2
    | apply linesInOrder_hit1
    | apply linesInOrder_append_left
    | apply linesInOrder_cons_left))
  iterate 64 (try (first
    | exact linesInOrder_nil _
    | apply linesInOrder_hit3
    | apply linesInOrder_hit2
    | apply linesInOrder_hit1
    | apply linesInOrder_append_left
    | apply linesInOrder_cons_left))
  iterate 64 (try (first
    | exact linesInOrder_nil _
    | apply linesInOrder_hit3
    | apply linesInOrder_hit2
    | apply linesInOrder_hit1
    | apply linesInOrder_append_left
    | apply linesInOrder_cons_left))
  iterate 64 (try (first
    | exact linesInOrder_nil _
    | apply linesInOrder_hit3
    | apply linesInOrder_hit2
    | apply linesInOrder_hit1
    | apply linesInOrder_append_left
    | apply linesInOrder_cons_left))
  iterate 64 (try (first
    | exact linesInOrder_nil _
    | apply linesInOrder_hit3
    | apply linesInOrder_hit2
    | apply linesInOrder_hit1
    | apply linesInOrder_append_left
    | apply linesInOrder_cons_left))

theorem scalarLines_zeroConfig : scalarLines zeroConfig = zeroLines := by decide!

theorem tlsCert_sublist (c : RootConfig) :
    ["  tls_cert=\"\"".toList].Sublist (scalarLines (withEmptyTLSCert c)) := by
  simp [scalarLines, withEmptyTLSCert, htmlReplacer]

end Completeness

/-- C1. Completeness: for every model the document holds, in template order,
the assignment line of every scalar field, whatever the value (a string field
shows its escaped value between the quotes); for the model whose strings are
empty, integers 0 and booleans false these are the lines of `zeroLines`; and
an empty `Backend.BasicStation.TLSCert` gives the line `  tls_cert=""`. -/
theorem scalar_fields_always_rendered :
    (∀ c : RootConfig, LinesInOrder (scalarLines c) (render c)) ∧
    LinesInOrder zeroLines (render zeroConfig) ∧
    (∀ c : RootConfig,
      LinesInOrder ["  tls_cert=\"\"".toList] (render (withEmptyTLSCert c))) :=
  ⟨scalarLines_inOrder,
   scalarLines_zeroConfig ▸ scalarLines_inOrder zeroConfig,
   fun c => linesInOrder_sublist (tlsCert_sublist c) (scalarLines_inOrder _)⟩

section Variants

set_option maxRecDepth 100000 in
set_option maxHeartbeats 4000000 in
theorem variantBlockLines_inOrder (c : RootConfig) :
    LinesInOrder (variantBlockLines c) (render c) := by
  simp only [render, configTemplate, tmplBackend, tmplBasicStation, tmplIntegration,
    tmplGeneric, tmplGCPCloudIoTCore, tmplAzureIoTHub, tmplMetrics, variantBlockLines,
    htmlEscaper_str, htmlEscaper_int, htmlEscaper_bool, htmlEscaper_duration]
  simp only [T08, T09, T10, T11, T12, T18, T19, T20, T21, T22, T23, T24, T25, T26,
    T27, T28, T29, T30, T31, T32, T33, T34, T35, T36, T37, T38, T39, T40, T41, T42, T43, T44,
    T45, T46, T47, T48, T49, T50, T51, T52, T53, T54, T55, T56, text, ln_empty]
  simp only [ln, frag, List.flatten_cons, List.flatten_nil, List.flatten_append,
    List.append_assoc, List.cons_append, List.nil_append, List.append_nil]
  iterate 64 (try (first
    | exact linesInOrder_nil _
    | apply linesInOrder_hit3
    | apply linesInOrder_hit2
    | apply linesInOrder_hit1
    | apply linesInOrder_append_left
    | apply linesInOrder_cons_left))
  iterate 64 (try (first
    | exact linesInOrder_nil _
    | apply linesInOrder_hit3
    | apply linesInOrder_hit2
    | apply linesInOrder_hit1
    | apply linesInOrder_append_left
    | apply linesInOrder_cons_left))
  iterate 64 (try (first
    | exact linesInOrder_nil _
    | apply linesInOrder_hit3
    | apply linesInOrder_hit2
    | apply linesInOrder_hit1
    | apply linesInOrder_append_left
    | apply linesInOrder_cons_left))
  iterate 64 (try (first
    | exact linesInOrder_nil _
    | apply linesInOrder_hit3
    | apply linesInOrder_hit2
    | apply linesInOrder_hit1
    | apply linesInOrder_append_left
    | apply linesInOrder_cons_left))
  iterate 64 (try (first
    | exact linesInOrder_nil _
    | apply linesInOrder_hit3
    | apply linesInOrder_hit2
    | apply linesInOrder_hit1
    | apply linesInOrder_append_left
    | apply linesInOrder_cons_left))
  iterate 64 (try (first
    | exact linesInOrder_nil _
    | apply linesInOrder_hit3
    | apply linesInOrder_hit2
    | apply linesInOrder_hit1
    | apply linesInOrder_append_left
    | apply linesInOrder_cons_left))
  iterate 64 (try (first
    | exact linesInOrder_nil _
    | apply linesInOrder_hit3
    | apply linesInOrder_hit2
    | apply linesInOrder_hit1
    | apply linesInOrder_append_left
    | apply linesInOrder_cons_left))

theorem T08_split : ∃ a, T08 = a ++ "\ntype=\"".toList :=
  ⟨T08.take (T08.length - 7), by decide!⟩

theorem T09_split : ∃ r, T09 = "\"\n".toList ++ r := ⟨T09.drop 2, by decide!⟩

theorem T33_split : ∃ a, T33 = a ++ "\n  type=\"".toList :=
  ⟨T33.take (T33.length - 9), by decide!⟩

theorem T34_split : ∃ r, T34 = "\"\n".toList ++ r := ⟨T34.drop 2, by decide!⟩

set_option maxRecDepth 100000 in
theorem render_withTypes (c : RootConfig) : ∃ a b d : GoString, ∀ bt mt : GoString,
    render (withTypes c bt mt) =
      a ++ "\ntype=\"".toList ++ htmlReplacer bt ++ "\"\n".toList ++
      b ++ "\n  type=\"".toList ++ htmlReplacer mt ++ "\"\n".toList ++ d := by
  obtain ⟨a8, h8⟩ := T08_split
  obtain ⟨r9, h9⟩ := T09_split
  obtain ⟨a33, h33⟩ := T33_split
  obtain ⟨r34, h34⟩ := T34_split
  refine ⟨(tmplGeneral c ++ tmplNetIDs c ++ [T04] ++ tmplJoinEUIs c).flatten ++ a8,
    r9 ++ (((tmplBackend c).drop 3) ++ tmplConfiguration c ++ tmplBasicStation c ++
      (tmplIntegration c).take 8).flatten ++ a33,
    r34 ++ (((tmplGeneric c).drop 1) ++ tmplGCPCloudIoTCore c ++ tmplAzureIoTHub c ++
      tmplMetrics c ++ tmplStatic c ++ tmplDynamic c ++ tmplDynamicCommands c ++ [T68] ++
      tmplCommands c ++ [T73]).flatten, fun bt mt => ?_⟩
  simp only [render, configTemplate, tmplGeneral, tmplNetIDs, tmplJoinEUIs, tmplBackend,
    tmplConfiguration, tmplBasicStation, tmplIntegration, tmplGeneric, tmplGCPCloudIoTCore,
    tmplAzureIoTHub, tmplMetrics, tmplStatic, tmplDynamic, tmplDynamicCommands, tmplCommands,
    withTypes, htmlEscaper_str, List.drop, List.take, h8, h9, h33, h34,
    List.flatten_cons, List.flatten_nil, List.flatten_append, List.append_assoc,
    List.nil_append, List.append_nil]

end Variants

/-- C2. Variant blocks are rendered whatever the discriminators: for every
model the document holds the five variant headers, each followed by the
assignment lines of its keys, in template order; and the documents of the
models that differ from `c` only in `Backend.Type` and
`Integration.MQTT.Auth.Type` are one fixed text `a`, `b`, `d` around the two
values written between the quotes of the two `type="..."` lines. -/
theorem variant_blocks_independent_of_type :
    (∀ c : RootConfig, LinesInOrder (variantBlockLines c) (render c)) ∧
    (∀ c : RootConfig, ∃ a b d : GoString, ∀ bt mt : GoString,
      render (withTypes c bt mt) =
        a ++ "\ntype=\"".toList ++ htmlReplacer bt ++ "\"\n".toList ++
        b ++ "\n  type=\"".toList ++ htmlReplacer mt ++ "\"\n".toList ++ d) :=
  ⟨variantBlockLines_inOrder, render_withTypes⟩

section Escaped

theorem occursAsLine_of_split (l r : GoString) : ∀ a : GoString,
    occursAsLine l (a ++ '\n' :: (l ++ '\n' :: r)) = true
  | [] => by
    have h : (l ++ ['\n']).isPrefixOf (l ++ '\n' :: r) = true := by
      rw [ List.isPrefixOf_iff_prefix]
      exact ⟨r, by simp⟩
    simp [occursAsLine, h]
  | ch :: a => by
    have ih := occursAsLine_of_split l r a
    show occursAsLine l (ch :: (a ++ '\n' :: (l ++ '\n' :: r))) = true
    unfold occursAsLine
    split
    · rfl
    · exact ih

theorem occursAsLine_of_linesInOrder {l d : GoString} (h : LinesInOrder [l] d) :
    occursAsLine l d = true := by
  obtain ⟨a, r, hd, hr, _⟩ := h
  cases r with
  | nil => simp at hr
  | cons x r =>
    simp only [List.head?_cons, Option.some.injEq] at hr
    subst hr hd
    exact occursAsLine_of_split l r a

theorem password_sublist (c : RootConfig) :
    ["    password=\"".toList ++ htmlReplacer c.Integration.MQTT.Auth.Generic.Password ++
      "\"".toList].Sublist (variantBlockLines c) := by
  simp [variantBlockLines]

theorem quotePassword_sublist :
    ["    password=\"p&#34;w\"".toList].Sublist
      (variantBlockLines (withPassword zeroConfig "p\"w".toList)) := by
  decide!

theorem quotePassword_absent :
    occursAsLine "    password=\"p\"w\"".toList
      (render (withPassword zeroConfig "p\"w".toList)) = false := by
  decide!

theorem plusPassword_sublist :
    ["    password=\"p&#43;w\"".toList].Sublist
      (variantBlockLines (withPassword zeroConfig "p+w".toList)) := by
  decide!

theorem plusPassword_absent :
    occursAsLine "    password=\"p+w\"".toList
      (render (withPassword zeroConfig "p+w".toList)) = false := by
  decide!

/-- The template text holds no `<`: the escaper of `html/template` never leaves
the HTML text context, so every action is escaped by `htmlEscaper` and the
text nodes are written unchanged. -/
theorem templateText_no_tag : ∀ t ∈ templateText, Char.ofNat 60 ∉ t := by
  decide!

end Escaped

/-- C3, evaluated on the code. For every model the password line holds the
value as `htmlReplacer` rewrites it. With the generic MQTT password `p"w` the
document holds the line `    password="p&#34;w"`, the quote being written as
the entity `&#34;`, and does not hold the line `    password="p"w"`; with the
password `p+w` it holds `    password="p&#43;w"` and not `    password="p+w"`. -/
theorem password_written_html_escaped :
    (∀ c : RootConfig,
      LinesInOrder ["    password=\"".toList ++
        htmlReplacer c.Integration.MQTT.Auth.Generic.Password ++ "\"".toList] (render c)) ∧
    (LinesInOrder ["    password=\"p&#34;w\"".toList]
        (render (withPassword zeroConfig "p\"w".toList)) ∧
      ¬ LinesInOrder ["    password=\"p\"w\"".toList]
        (render (withPassword zeroConfig "p\"w".toList))) ∧
    (LinesInOrder ["    password=\"p&#43;w\"".toList]
        (render (withPassword zeroConfig "p+w".toList)) ∧
      ¬ LinesInOrder ["    password=\"p+w\"".toList]
        (render (withPassword zeroConfig "p+w".toList))) :=
  ⟨fun c => linesInOrder_sublist (password_sublist c) (variantBlockLines_inOrder c),
   ⟨linesInOrder_sublist quotePassword_sublist (variantBlockLines_inOrder _),
    fun h => Bool.noConfusion ((occursAsLine_of_linesInOrder h).symm.trans quotePassword_absent)⟩,
   ⟨linesInOrder_sublist plusPassword_sublist (variantBlockLines_inOrder _),
    fun h => Bool.noConfusion ((occursAsLine_of_linesInOrder h).symm.trans plusPassword_absent)⟩⟩

section Fragments

theorem T02_eq : T02 = "\n  \"".toList := by decide
theorem T03_eq : T03 = "\",".toList := by decide
theorem T05_eq : T05 = "\n  [\"".toList := by decide
theorem T06_eq : T06 = "\", \"".toList := by decide
theorem T07_eq : T07 = "\"],".toList := by decide

theorem netIDs_flatten : ∀ ids : List GoString, (∀ e ∈ ids, Plain e) →
    (ids.flatMap (fun elm => [T02, htmlEscaper (.str elm), T03])).flatten =
      (ids.map quotedEntry).flatten
  | [], _ => rfl
  | e :: ids, h => by
    have he : htmlReplacer e = e := htmlReplacer_of_plain (h e (List.mem_cons_self _ _))
    have ih := netIDs_flatten ids (fun x hx => h x (List.mem_cons_of_mem _ hx))
    rw [List.flatMap_cons, List.flatten_append, ih]
    simp only [List.map_cons, List.flatten_cons, List.flatten_nil, htmlEscaper_str, he,
      quotedEntry, T02_eq, T03_eq, List.append_assoc, List.append_nil]

theorem joinEUIs_flatten : ∀ rs : List (GoString × GoString),
    (rs.flatMap (fun elm =>
      [T05, htmlEscaper (.str elm.1), T06, htmlEscaper (.str elm.2), T07])).flatten =
      (rs.map renderedPair).flatten
  | [] => rfl
  | e :: rs => by
    have ih := joinEUIs_flatten rs
    have e5 : T05 = "\n  ".toList ++ "[\"".toList := by decide
    have e7 : T07 = "\"]".toList ++ ",".toList := by decide
    rw [List.flatMap_cons, List.flatten_append, ih]
    simp only [List.map_cons, List.flatten_cons, List.flatten_nil, htmlEscaper_str,
      renderedPair, e5, T06_eq, e7, List.append_assoc, List.append_nil]

theorem renderedPair_of_isHex (low high : GoString) (hl : IsHex low) (hh : IsHex high) :
    renderedPair (low, high) = pairEntry (low, high) := by
  simp only [renderedPair, pairEntry, htmlReplacer_of_plain (plain_of_isHex hl),
    htmlReplacer_of_plain (plain_of_isHex hh)]

theorem joinEUIs_entry_in_place (rs : List (GoString × GoString)) (low high : GoString)
    (hmem : (low, high) ∈ rs) (hl : IsHex low) (hh : IsHex high) :
    ∃ before after, rs = before ++ (low, high) :: after ∧
      rs.map renderedPair =
        before.map renderedPair ++ pairEntry (low, high) :: after.map renderedPair := by
  obtain ⟨before, after, hs⟩ := List.append_of_mem hmem
  refine ⟨before, after, hs, ?_⟩
  rw [hs, List.map_append, List.map_cons, renderedPair_of_isHex low high hl hh]

theorem T01_split : ∃ t, T01 = t ++ '\n' :: "net_ids=[".toList :=
  ⟨T01.take (T01.length - 10), by decide!⟩

theorem T04_split : ∃ t r, T04 = "\n]".toList ++ '\n' :: r ∧
    T04 = t ++ '\n' :: "join_euis=[".toList ∧ "\n]".toList ++ '\n' :: r = t ++ '\n' :: "join_euis=[".toList :=
  ⟨T04.take (T04.length - 12), T04.drop 3, by decide!, by decide!, by decide!⟩

theorem T08_head : ∃ r, T08 = "\n]".toList ++ '\n' :: r := ⟨T08.drop 3, by decide!⟩

theorem render_netIDs (c : RootConfig) (h : ∀ e ∈ c.Filters.NetIDs, IsHex e) :
    ∃ t r, T01 = t ++ '\n' :: "net_ids=[".toList ∧
      render c = T00 ++ sprintInt c.General.LogLevel ++ t ++
        '\n' :: (netIDsFragment c.Filters.NetIDs ++ '\n' :: r) := by
  obtain ⟨t, ht⟩ := T01_split
  obtain ⟨_, r4, h4, _⟩ := T04_split
  refine ⟨t, r4 ++ (tmplJoinEUIs c ++ tmplBackend c ++ tmplConfiguration c ++
    tmplBasicStation c ++ tmplIntegration c ++ tmplGeneric c ++ tmplGCPCloudIoTCore c ++
    tmplAzureIoTHub c ++ tmplMetrics c ++ tmplStatic c ++ tmplDynamic c ++
    tmplDynamicCommands c ++ [T68] ++ tmplCommands c ++ [T73]).flatten, ht, ?_⟩
  have hn := netIDs_flatten c.Filters.NetIDs (fun e he => plain_of_isHex (h e he))
  simp only [render, configTemplate, tmplGeneral, tmplNetIDs, hn, htmlEscaper_int, ht, h4,
    netIDsFragment, List.flatten_cons, List.flatten_nil, List.flatten_append,
    List.append_assoc, List.cons_append, List.nil_append, List.append_nil]

theorem render_joinEUIs (c : RootConfig) :
    ∃ t r, T04 = t ++ '\n' :: "join_euis=[".toList ∧
      render c = (tmplGeneral c ++ tmplNetIDs c).flatten ++ t ++
        '\n' :: (joinEUIsFragment (c.Filters.JoinEUIs.map renderedPair) ++ '\n' :: r) := by
  obtain ⟨t, _, _, ht, _⟩ := T04_split
  obtain ⟨r8, h8⟩ := T08_head
  refine ⟨t, r8 ++ ((tmplBackend c).drop 1 ++ tmplConfiguration c ++
    tmplBasicStation c ++ tmplIntegration c ++ tmplGeneric c ++ tmplGCPCloudIoTCore c ++
    tmplAzureIoTHub c ++ tmplMetrics c ++ tmplStatic c ++ tmplDynamic c ++
    tmplDynamicCommands c ++ [T68] ++ tmplCommands c ++ [T73]).flatten, ht, ?_⟩
  have hn := joinEUIs_flatten c.Filters.JoinEUIs
  simp only [render, configTemplate, tmplJoinEUIs, tmplBackend, hn, ht, h8, List.drop,
    joinEUIsFragment, List.flatten_cons, List.flatten_nil, List.flatten_append,
    List.append_assoc, List.cons_append, List.nil_append, List.append_nil]

end Fragments

section Overrides

theorem configuration_flatten : ∀ gs : List GatewayConfiguration, (∀ g ∈ gs, PlainRecord g) →
    (gs.flatMap (fun config =>
      [T13, htmlEscaper (.str config.GatewayID), T14, htmlEscaper (.str config.BaseFile), T15,
       htmlEscaper (.str config.OutputFile), T16, htmlEscaper (.str config.RestartCommand),
       T17])).flatten = (gs.map configurationBlock).flatten
  | [], _ => rfl
  | g :: gs, h => by
    obtain ⟨h1, h2, h3, h4⟩ := h g (List.mem_cons_self _ _)
    have ih := configuration_flatten gs (fun x hx => h x (List.mem_cons_of_mem _ hx))
    have e13 : T13 = "\n    [[backend.semtech_udp.configuration]]\n".toList ++
        "    gateway_id=\"".toList := by decide
    have e14 : T14 = "\"\n".toList ++ "    base_file=\"".toList := by decide
    have e15 : T15 = "\"\n".toList ++ "    output_file=\"".toList := by decide
    have e16 : T16 = "\"\n".toList ++ "    restart_command=\"".toList := by decide
    have e17 : T17 = "\"\n".toList := by decide
    rw [List.flatMap_cons, List.flatten_append, ih]
    simp only [List.map_cons, List.flatten_cons, List.flatten_nil, htmlEscaper_str,
      htmlReplacer_of_plain h1, htmlReplacer_of_plain h2, htmlReplacer_of_plain h3,
      htmlReplacer_of_plain h4, configurationBlock, e13, e14, e15, e16, e17,
      List.append_assoc, List.append_nil]

theorem T09_header : ∃ a r, T09 = a ++ "\n  [backend.semtech_udp]\n".toList ++ r :=
  ⟨T09.take 45, T09.drop 70, by decide!⟩

theorem T11_split : ∃ a, T11 = a ++ "\n  fake_rx_time=".toList :=
  ⟨T11.take 138, by decide!⟩

theorem T12_eq : T12 = "\n".toList ++ "\n".toList := by decide

theorem T18_split : ∃ r, T18 = "\n\n".toList ++
    "  # Basic Station backend.\n  [backend.basic_station]\n".toList ++ r :=
  ⟨T18.drop 55, by decide!⟩

theorem render_configuration (c : RootConfig)
    (h : ∀ g ∈ c.Backend.SemtechUDP.Configuration, PlainRecord g) :
    ∃ a1 a2 r, render c =
      a1 ++ "\n  [backend.semtech_udp]\n".toList ++
      a2 ++ "\n  fake_rx_time=".toList ++ stringify (.bool c.Backend.SemtechUDP.FakeRxTime) ++
        "\n".toList ++
      ("\n".toList ++ (c.Backend.SemtechUDP.Configuration.map configurationBlock).flatten ++
        "\n\n".toList) ++
      "  # Basic Station backend.\n  [backend.basic_station]\n".toList ++ r := by
  obtain ⟨a9, r9, h9⟩ := T09_header
  obtain ⟨a11, h11⟩ := T11_split
  obtain ⟨r18, h18⟩ := T18_split
  refine ⟨(tmplGeneral c ++ tmplNetIDs c ++ [T04] ++ tmplJoinEUIs c).flatten ++ T08 ++
      htmlReplacer c.Backend.Type_ ++ a9,
    r9 ++ htmlReplacer c.Backend.SemtechUDP.UDPBind ++ T10 ++
      stringify (.bool c.Backend.SemtechUDP.SkipCRCCheck) ++ a11,
    r18 ++ ((tmplBasicStation c).drop 1 ++ tmplIntegration c ++ tmplGeneric c ++
      tmplGCPCloudIoTCore c ++ tmplAzureIoTHub c ++ tmplMetrics c ++ tmplStatic c ++
      tmplDynamic c ++ tmplDynamicCommands c ++ [T68] ++ tmplCommands c ++ [T73]).flatten, ?_⟩
  have hn := configuration_flatten c.Backend.SemtechUDP.Configuration h
  simp only [render, configTemplate, tmplConfiguration, hn, List.flatten_append]
  simp only [tmplBackend, tmplBasicStation,
    h9, h11, T12_eq, h18, htmlEscaper_str, htmlEscaper_bool, List.drop,
    List.flatten_cons, List.flatten_nil, List.flatten_append,
    List.append_assoc, List.cons_append, List.nil_append, List.append_nil]

end Overrides

section Mappings

theorem mem_sortKeys {V : Type} {kv : GoString × V} {m : List (GoString × V)} (h : kv ∈ m) :
    kv ∈ sortKeys m :=
  (List.perm_insertionSort _ m).mem_iff.mpr h

theorem length_sortKeys {V : Type} (m : List (GoString × V)) :
    (sortKeys m).length = m.length :=
  (List.perm_insertionSort _ m).length_eq

set_option maxRecDepth 100000 in
set_option maxHeartbeats 4000000 in
theorem static_line_inOrder (c : RootConfig) (k v : GoString)
    (hmem : (k, v) ∈ c.MetaData.Static) (hk : IsName k) (hv : IsName v) :
    LinesInOrder ["  [meta_data.static]".toList,
      "  ".toList ++ k ++ "=\"".toList ++ v ++ "\"".toList,
      "  [meta_data.dynamic]".toList] (render c) := by
  obtain ⟨before, after, hs⟩ := List.append_of_mem (mem_sortKeys hmem)
  have ek : htmlReplacer k = k := htmlReplacer_of_plain (plain_of_isName hk)
  have ev : htmlReplacer v = v := htmlReplacer_of_plain (plain_of_isName hv)
  simp only [render, configTemplate, tmplMetrics, tmplStatic, tmplDynamic, hs,
    List.flatMap_append, List.flatMap_cons, htmlEscaper_str, ek, ev]
  simp only [T58, T59, T60, T61, T62, text, ln_empty]
  simp only [ln, frag, List.flatten_cons, List.flatten_nil, List.flatten_append,
    List.append_assoc, List.cons_append, List.nil_append, List.append_nil]
  iterate 64 (try (first
    | exact linesInOrder_nil _
    | apply linesInOrder_hit5
    | apply linesInOrder_hit1
    | apply linesInOrder_append_left
    | apply linesInOrder_cons_left))

end Mappings

section Commands

theorem linesInOrder_hitBlock3 {ls : List GoString} (p1 k s1 p2 d s2 p3 c s3 r : GoString)
    (h : LinesInOrder ls ('\n' :: r)) :
    LinesInOrder
      ((p1 ++ (k ++ (s1 ++ '\n' :: (p2 ++ (d ++ (s2 ++ '\n' :: (p3 ++ (c ++ s3)))))))) :: ls)
      ('\n' :: (p1 ++ (k ++ (s1 ++ '\n' :: (p2 ++ (d ++ (s2 ++ '\n' ::
        (p3 ++ (c ++ (s3 ++ '\n' :: r)))))))))) :=
  ⟨[], '\n' :: r, by simp, rfl, h⟩

set_option maxRecDepth 100000 in
set_option maxHeartbeats 4000000 in
theorem command_block_inOrder (c : RootConfig) (name : GoString) (cmd : NamedCommand)
    (hmem : (name, cmd) ∈ c.Commands.Commands) (hk : IsName name) (hv : IsName cmd.Command) :
    LinesInOrder ["[commands]".toList,
      linesBlock ["  [commands.commands.".toList ++ name ++ "]".toList,
        "  max_execution_duration=\"".toList ++ cmd.MaxExecutionDuration.String ++ "\"".toList,
        "  command=\"".toList ++ cmd.Command ++ "\"".toList]] (render c) := by
  obtain ⟨before, after, hs⟩ := List.append_of_mem (mem_sortKeys hmem)
  have ek : htmlReplacer name = name := htmlReplacer_of_plain (plain_of_isName hk)
  have ev : htmlReplacer cmd.Command = cmd.Command := htmlReplacer_of_plain (plain_of_isName hv)
  simp only [render, configTemplate, tmplCommands, hs, linesBlock,
    List.flatMap_append, List.flatMap_cons, htmlEscaper_str, htmlEscaper_duration, ek, ev]
  simp only [T68, T69, T70, T71, T72, text, ln_empty]
  simp only [ln, frag, List.flatten_cons, List.flatten_nil, List.flatten_append,
    List.append_assoc, List.cons_append, List.nil_append, List.append_nil]
  iterate 64 (try (first
    | exact linesInOrder_nil _
    | apply linesInOrder_hitBlock3
    | apply linesInOrder_hit1
    | apply linesInOrder_append_left
    | apply linesInOrder_cons_left))

theorem countOccurrences_cons (pat : GoString) (ch : Char) (d : GoString) :
    countOccurrences pat (ch :: d) =
      (if pat.isPrefixOf (ch :: d) then 1 else 0) + countOccurrences pat d := rfl

theorem countOccurrences_le_count (h : Char) (pt : GoString) : ∀ d : GoString,
    countOccurrences (h :: pt) d ≤ List.count h d
  | [] => Nat.le_refl _
  | ch :: d => by
    have ih := countOccurrences_le_count h pt d
    rw [countOccurrences_cons, List.count_cons]
    by_cases hc : ch = h
    · subst hc
      have : (if (ch == ch) = true then 1 else 0) = 1 := by simp
      rw [this]
      split <;> omega
    · have hne : (h :: pt).isPrefixOf (ch :: d) = false := by
        simp [List.isPrefixOf, Ne.symm hc]
      simp only [hne, Bool.false_eq_true, if_false]
      omega

theorem countOccurrences_append (pat : GoString) : ∀ x y : GoString,
    countOccurrences pat x + countOccurrences pat y ≤ countOccurrences pat (x ++ y)
  | [], y => by simp [countOccurrences]
  | ch :: x, y => by
    have ih := countOccurrences_append pat x y
    show _ ≤ countOccurrences pat (ch :: (x ++ y))
    rw [countOccurrences_cons, countOccurrences_cons]
    by_cases hp : pat.isPrefixOf (ch :: x) = true
    · have hp2 : pat.isPrefixOf (ch :: (x ++ y)) = true := by
        rw [ List.isPrefixOf_iff_prefix] at hp ⊢
        exact hp.trans (List.prefix_append (ch :: x) y)
      simp only [hp, hp2, if_true]
      omega
    · simp only [hp, Bool.false_eq_true, if_false]
      have : 0 ≤ (if pat.isPrefixOf (ch :: (x ++ y)) = true then 1 else 0) := Nat.zero_le _
      omega

theorem countOccurrences_self (h : Char) (pt y : GoString) :
    1 ≤ countOccurrences (h :: pt) ((h :: pt) ++ y) := by
  have hp : (h :: pt).isPrefixOf (h :: (pt ++ y)) = true := by
    rw [ List.isPrefixOf_iff_prefix]
    exact List.prefix_append (h :: pt) y
  show 1 ≤ countOccurrences (h :: pt) (h :: (pt ++ y))
  rw [countOccurrences_cons]
  simp only [hp, if_true]
  omega

theorem countOccurrences_blocks (h : Char) (pt : GoString) : ∀ bs : List GoString,
    (∀ b ∈ bs, List.count h b = 1 ∧ ∃ x y, b = x ++ ((h :: pt) ++ y)) →
    countOccurrences (h :: pt) bs.flatten = bs.length
  | [], _ => rfl
  | b :: bs, hb => by
    have ih := countOccurrences_blocks h pt bs (fun x hx => hb x (List.mem_cons_of_mem _ hx))
    obtain ⟨hc, x, y, hxy⟩ := hb b (List.mem_cons_self _ _)
    have hcount : List.count h bs.flatten = bs.length := by
      have := countOccurrences_le_count h pt bs.flatten
      have hle : List.count h bs.flatten ≤ bs.length := by
        clear this ih
        induction bs with
        | nil => simp
        | cons b2 bs ih2 =>
          have h2 := (hb b2 (List.mem_cons_of_mem _ (List.mem_cons_self _ _))).1
          have := ih2 (fun z hz => hb z (by
            rcases List.mem_cons.mp hz with rfl | hz
            · exact List.mem_cons_self _ _
            · exact List.mem_cons_of_mem _ (List.mem_cons_of_mem _ hz)))
          simp only [List.flatten_cons, List.count_append, List.length_cons, h2]
          omega
      omega
    have up := countOccurrences_le_count h pt (b :: bs).flatten
    have lo := countOccurrences_append (h :: pt) b bs.flatten
    have lo1 : 1 ≤ countOccurrences (h :: pt) b := by
      rw [hxy]
      have := countOccurrences_append (h :: pt) x ((h :: pt) ++ y)
      have := countOccurrences_self h pt y
      omega
    simp only [List.flatten_cons, List.count_append, hc, hcount, List.length_cons] at up lo ⊢
    omega

end Commands

section CommandCount

theorem flatten_flatMap {α : Type} (f : α → List GoString) : ∀ l : List α,
    (l.flatMap f).flatten = (l.map (fun x => (f x).flatten)).flatten
  | [] => rfl
  | x :: l => by
    rw [List.flatMap_cons, List.flatten_append, flatten_flatMap f l, List.map_cons,
      List.flatten_cons]

theorem count_bracket_of_isName {s : GoString} (h : IsName s) : List.count '[' s = 0 := by
  rw [List.count_eq_zero]
  intro hmem
  exact absurd (h _ hmem) (by decide)

theorem count_bracket_of_numberText {s : GoString} (h : NumberText s) :
    List.count '[' s = 0 := by
  rw [List.count_eq_zero]
  intro hmem
  exact absurd (h _ hmem) (by decide)

theorem commands_header_count (c : RootConfig)
    (h : ∀ kv ∈ c.Commands.Commands, IsName kv.1 ∧ IsName kv.2.Command) :
    countOccurrences "[commands.commands.".toList (tmplCommands c).flatten =
      c.Commands.Commands.length := by
  have e69 : T69 = "\n  ".toList ++ (('[' :: "commands.commands.".toList) ++ []) := by decide
  have c69 : List.count '[' T69 = 1 := by decide
  have c70 : List.count '[' T70 = 0 := by decide
  have c71 : List.count '[' T71 = 0 := by decide
  have c72 : List.count '[' T72 = 0 := by decide
  rw [tmplCommands, flatten_flatMap, ← length_sortKeys c.Commands.Commands,
    ← List.length_map (sortKeys c.Commands.Commands)]
  show countOccurrences ('[' :: "commands.commands.".toList) _ = _
  apply countOccurrences_blocks
  intro b hb
  obtain ⟨kv, hkv, rfl⟩ := List.mem_map.mp hb
  have hkv2 : kv ∈ c.Commands.Commands := (List.perm_insertionSort _ _).mem_iff.mp hkv
  obtain ⟨hk, hv⟩ := h kv hkv2
  have ek : htmlReplacer kv.1 = kv.1 := htmlReplacer_of_plain (plain_of_isName hk)
  have ev : htmlReplacer kv.2.Command = kv.2.Command :=
    htmlReplacer_of_plain (plain_of_isName hv)
  simp only [htmlEscaper_str, htmlEscaper_duration, ek, ev, List.flatten_cons,
    List.flatten_nil, List.append_nil]
  refine ⟨?_, "\n  ".toList, kv.1 ++ (T70 ++ (kv.2.MaxExecutionDuration.String ++
    (T71 ++ (kv.2.Command ++ T72)))), ?_⟩
  · simp only [List.count_append, c69, c70, c71, c72, count_bracket_of_isName hk,
      count_bracket_of_isName hv, count_bracket_of_numberText (duration_number _)]
  · rw [e69]
    simp only [List.append_assoc, List.append_nil, List.nil_append]

end CommandCount

section Determinism

theorem sortKeys_sorted {V : Type} (m : List (GoString × V)) :
    (sortKeys m).Sorted (fun a b => a.1 ≤ b.1) := by
  haveI : IsTotal (GoString × V) (fun a b => a.1 ≤ b.1) := ⟨fun a b => le_total a.1 b.1⟩
  haveI : IsTrans (GoString × V) (fun a b => a.1 ≤ b.1) :=
    ⟨fun _ _ _ h1 h2 => le_trans h1 h2⟩
  exact List.sorted_insertionSort _ m

theorem sortKeys_eq {V : Type} {m1 m2 : List (GoString × V)} (h : SameEntries m1 m2) :
    sortKeys m1 = sortKeys m2 := by
  obtain ⟨hn1, hn2, hmem⟩ := h
  have p1 : (sortKeys m1).Perm m1 := List.perm_insertionSort _ m1
  have p2 : (sortKeys m2).Perm m2 := List.perm_insertionSort _ m2
  have p12 : m1.Perm m2 :=
    (List.perm_ext_iff_of_nodup (List.Nodup.of_map _ hn1) (List.Nodup.of_map _ hn2)).mpr hmem
  have strict : ∀ m : List (GoString × V), IsMap m →
      (sortKeys m).Pairwise (fun a b => a.1 ≤ b.1 ∧ (a.1 = b.1 → a = b)) := by
    intro m hm
    have hk : ((sortKeys m).map Prod.fst).Nodup :=
      ((List.perm_insertionSort _ m).map Prod.fst).nodup_iff.mpr hm
    have hne : (sortKeys m).Pairwise (fun a b => a.1 ≠ b.1) := by
      have := List.pairwise_map.mp hk
      exact this
    exact ((sortKeys_sorted m).and hne).imp (fun h => ⟨h.1, fun he => absurd he h.2⟩)
  haveI : IsAntisymm (GoString × V) (fun a b => a.1 ≤ b.1 ∧ (a.1 = b.1 → a = b)) :=
    ⟨fun a b h1 h2 => h1.2 (le_antisymm h1.1 h2.1)⟩
  exact List.eq_of_perm_of_sorted ((p1.trans p12).trans p2.symm) (strict m1 hn1) (strict m2 hn2)

theorem configTemplate_congr {c1 c2 : RootConfig} (h : SameContent c1 c2) :
    configTemplate c1 = configTemplate c2 := by
  obtain ⟨h1, h2, h3, h4, h5, h6, h7, h8, h9, h10⟩ := h
  simp only [configTemplate, tmplGeneral, tmplNetIDs, tmplJoinEUIs, tmplBackend,
    tmplConfiguration, tmplBasicStation, tmplIntegration, tmplGeneric, tmplGCPCloudIoTCore,
    tmplAzureIoTHub, tmplMetrics, tmplStatic, tmplDynamic, tmplDynamicCommands, tmplCommands,
    h1, h2, h3, h4, h5, h6, h7, sortKeys_eq h8, sortKeys_eq h9, sortKeys_eq h10]

end Determinism

section Sink

theorem execute_cases {σ ε : Type} (w : Writer σ ε) : ∀ (ps : List GoString) (s : σ),
    (∃ s1, acceptAll w s ps = some s1 ∧ execute w s ps = ⟨ps, .ok s1⟩) ∨
    (∃ pre p post s1 e, ps = pre ++ p :: post ∧ acceptAll w s pre = some s1 ∧
      w.write s1 p = .error e ∧ execute w s ps = ⟨pre ++ [p], .error e⟩)
  | [], s => Or.inl ⟨s, rfl, rfl⟩
  | p :: ps, s => by
    cases hw : w.write s p with
    | error e =>
      exact Or.inr ⟨[], p, ps, s, e, rfl, rfl, hw, by simp [execute, hw]⟩
    | ok s1 =>
      rcases execute_cases w ps s1 with ⟨s2, ha, he⟩ | ⟨pre, q, post, s2, e, hps, ha, hq, he⟩
      · exact Or.inl ⟨s2, by simp [acceptAll, hw, ha], by simp [execute, hw, he]⟩
      · exact Or.inr ⟨p :: pre, q, post, s2, e, by simp [hps], by simp [acceptAll, hw, ha],
          hq, by simp [execute, hw, he]⟩

theorem acceptAll_append {σ ε : Type} (w : Writer σ ε) : ∀ (pre post : List GoString) (s s1 : σ),
    acceptAll w s pre = some s1 → acceptAll w s (pre ++ post) = acceptAll w s1 post
  | [], _, s, s1, h => by
    simp only [acceptAll, Option.some.injEq] at h
    subst h; rfl
  | p :: pre, post, s, s1, h => by
    cases hw : w.write s p with
    | error e => simp [acceptAll, hw] at h
    | ok s2 =>
      simp only [acceptAll, hw] at h
      simp only [List.cons_append, acceptAll, hw]
      exact acceptAll_append w pre post s2 s1 h

theorem execute_of_reject {σ ε : Type} (w : Writer σ ε) (pre : List GoString) (p : GoString)
    (post : List GoString) (s s1 : σ) (e : ε) (ha : acceptAll w s pre = some s1)
    (hw : w.write s1 p = .error e) :
    execute w s (pre ++ p :: post) = ⟨pre ++ [p], .error e⟩ := by
  rcases execute_cases w (pre ++ p :: post) s with
    ⟨s2, ha2, _⟩ | ⟨pre2, q, post2, s2, e2, hps, ha2, hq, he⟩
  · rw [acceptAll_append w pre _ s s1 ha] at ha2
    simp [acceptAll, hw] at ha2
  · -- the first rejected write is unique
    have key : ∀ (pre pre2 : List GoString) (s : σ), acceptAll w s pre = some s1 →
        acceptAll w s pre2 = some s2 → pre ++ p :: post = pre2 ++ q :: post2 →
        pre = pre2 ∧ p = q ∧ s1 = s2 := by
      intro pre
      induction pre with
      | nil =>
        intro pre2 s ha ha2 hps
        simp only [acceptAll, Option.some.injEq] at ha
        subst ha
        cases pre2 with
        | nil =>
          simp only [acceptAll, Option.some.injEq] at ha2
          simp only [List.nil_append, List.cons.injEq] at hps
          exact ⟨rfl, hps.1, ha2⟩
        | cons x pre2 =>
          simp only [List.nil_append, List.cons_append, List.cons.injEq] at hps
          obtain ⟨rfl, _⟩ := hps
          simp [acceptAll, hw] at ha2
      | cons x pre ih =>
        intro pre2 s ha ha2 hps
        cases pre2 with
        | nil =>
          simp only [List.nil_append, List.cons_append, List.cons.injEq] at hps
          obtain ⟨rfl, _⟩ := hps
          simp only [acceptAll, Option.some.injEq] at ha2
          subst ha2
          simp [acceptAll, hq] at ha
        | cons y pre2 =>
          simp only [List.cons_append, List.cons.injEq] at hps
          obtain ⟨rfl, hps⟩ := hps
          cases hx : w.write s x with
          | error e3 => simp [acceptAll, hx] at ha
          | ok s3 =>
            simp only [acceptAll, hx] at ha ha2
            obtain ⟨h1, h2, h3⟩ := ih pre2 s3 ha ha2 hps
            exact ⟨by rw [h1], h2, h3⟩
    obtain ⟨h1, h2, h3⟩ := key pre pre2 s ha ha2 hps
    subst h1 h2 h3
    rw [hw] at hq
    cases hq
    exact he

end Sink

section Command

theorem execute_bufferWriter : ∀ (ps : List GoString) (s : GoString),
    execute bufferWriter s ps = ⟨ps, .ok (s ++ ps.flatten)⟩
  | [], s => by simp [execute]
  | p :: ps, s => by
    have ih := execute_bufferWriter ps (s ++ p)
    have hw : bufferWriter.write s p = .ok (s ++ p) := rfl
    simp only [execute, hw, ih, List.flatten_cons, List.append_assoc]

theorem configCmd_of_execute_ok {σ ε : Type} (w : Writer σ ε) (s : σ) (c : RootConfig)
    (att : List GoString) (s1 : σ) (h : execute w s (configTemplate c) = ⟨att, .ok s1⟩) :
    configCmd w s c = ⟨att, .ok s1⟩ := by
  simp only [configCmd, h]

theorem configCmd_of_execute_error {σ ε : Type} (w : Writer σ ε) (s : σ) (c : RootConfig)
    (att : List GoString) (e : ε) (h : execute w s (configTemplate c) = ⟨att, .error e⟩) :
    configCmd w s c = ⟨att, .error ⟨"execute config template error", e⟩⟩ := by
  simp only [configCmd, h]

theorem configCmd_of_total {σ ε : Type} (w : Writer σ ε) (s : σ) (c : RootConfig)
    (h : ∀ s1 p, ∃ s2, w.write s1 p = .ok s2) :
    ∃ s2, acceptAll w s (configTemplate c) = some s2 ∧
      configCmd w s c = ⟨configTemplate c, .ok s2⟩ := by
  rcases execute_cases w (configTemplate c) s with
    ⟨s2, ha, he⟩ | ⟨pre, p, post, s1, e, _, _, hw, _⟩
  · exact ⟨s2, ha, configCmd_of_execute_ok w s c _ _ he⟩
  · obtain ⟨s3, hs3⟩ := h s1 p
    rw [hs3] at hw
    cases hw

theorem configCmd_bufferWriter (c : RootConfig) :
    configCmd bufferWriter [] c = ⟨configTemplate c, .ok (render c)⟩ := by
  have he := execute_bufferWriter (configTemplate c) []
  rw [List.nil_append] at he
  exact configCmd_of_execute_ok bufferWriter [] c _ _ he

theorem configCmd_of_reject {σ ε : Type} (w : Writer σ ε) (s : σ) (c : RootConfig)
    (pre : List GoString) (p : GoString) (post : List GoString) (s1 : σ) (e : ε)
    (hc : configTemplate c = pre ++ p :: post) (ha : acceptAll w s pre = some s1)
    (hw : w.write s1 p = .error e) :
    configCmd w s c = ⟨pre ++ [p], .error ⟨"execute config template error", e⟩⟩ := by
  have he := execute_of_reject w pre p post s s1 e ha hw
  rw [← hc] at he
  exact configCmd_of_execute_error w s c _ _ he

theorem configCmd_error_cases {σ ε : Type} (w : Writer σ ε) (s : σ) (c : RootConfig)
    (err : WrappedError ε) (h : (configCmd w s c).result = .error err) :
    ∃ pre p post s1 e, configTemplate c = pre ++ p :: post ∧
      acceptAll w s pre = some s1 ∧ w.write s1 p = .error e ∧
      (configCmd w s c).attempted = pre ++ [p] ∧
      err = ⟨"execute config template error", e⟩ := by
  rcases execute_cases w (configTemplate c) s with
    ⟨s2, _, he⟩ | ⟨pre, p, post, s1, e, hc, ha, hw, he⟩
  · rw [configCmd_of_execute_ok w s c _ _ he] at h
    cases h
  · rw [configCmd_of_execute_error w s c _ _ he] at h ⊢
    refine ⟨pre, p, post, s1, e, hc, ha, hw, rfl, ?_⟩
    cases h
    rfl

end Command

/-! ## The claims -/

/-- C4. Iteration count law for NetIDs: when `Filters.NetIDs` holds hex
strings, the document is the text above the `net_ids` line (`T00`, the log
level, and `T01` without its last line start), then on a line of its own the
fragment `net_ids=[`, one quoted entry per element in input order, newline and
`]`. The entries are as many as the elements, and for no element the fragment
is `net_ids=[`, newline, `]`. -/
theorem net_ids_iteration_count (c : RootConfig) (h : ∀ e ∈ c.Filters.NetIDs, IsHex e) :
    (∃ t r, T01 = t ++ '\n' :: "net_ids=[".toList ∧
      render c = T00 ++ sprintInt c.General.LogLevel ++ t ++
        '\n' :: (netIDsFragment c.Filters.NetIDs ++ '\n' :: r)) ∧
    (c.Filters.NetIDs.map quotedEntry).length = c.Filters.NetIDs.length ∧
    netIDsFragment [] = "net_ids=[\n]".toList :=
  ⟨render_netIDs c h, List.length_map _ _, by decide⟩

/-- Witness of C4 with the NetIDs `000000` and `000001`. -/
theorem net_ids_iteration_count_witness :
    (∀ e ∈ netIDsExample.Filters.NetIDs, IsHex e) ∧
    (∃ t r, T01 = t ++ '\n' :: "net_ids=[".toList ∧
      render netIDsExample = T00 ++ sprintInt 0 ++ t ++
        '\n' :: ("net_ids=[\n  \"000000\",\n  \"000001\",\n]".toList ++ '\n' :: r)) :=
  ⟨by decide, (net_ids_iteration_count netIDsExample (by decide)).1⟩

/-- C5. Pair-indexing correctness. For every model the document is the text
above the `join_euis` line, then on a line of its own the fragment
`join_euis=[`, one entry per range in input order, newline and `]`, each
entry holding the low bound (index 0) first and the high bound (index 1)
second. For every entry `(low, high)` of the list made of hex strings,
whatever the other entries are, the entry at its place is
`["low", "high"],` with the bounds as they are. The entry of
`("0000000000000000", "00000000000000ff")` is
`["0000000000000000", "00000000000000ff"],`. -/
theorem join_euis_pair_order (c : RootConfig) :
    (∃ t r, T04 = t ++ '\n' :: "join_euis=[".toList ∧
      render c = (tmplGeneral c ++ tmplNetIDs c).flatten ++ t ++
        '\n' :: (joinEUIsFragment (c.Filters.JoinEUIs.map renderedPair) ++ '\n' :: r)) ∧
    (∀ low high : GoString, (low, high) ∈ c.Filters.JoinEUIs → IsHex low → IsHex high →
      ∃ before after, c.Filters.JoinEUIs = before ++ (low, high) :: after ∧
        c.Filters.JoinEUIs.map renderedPair =
          before.map renderedPair ++ pairEntry (low, high) :: after.map renderedPair) ∧
    (c.Filters.JoinEUIs.map renderedPair).length = c.Filters.JoinEUIs.length ∧
    pairEntry ("0000000000000000".toList, "00000000000000ff".toList) =
      "\n  [\"0000000000000000\", \"00000000000000ff\"],".toList :=
  ⟨render_joinEUIs c, joinEUIs_entry_in_place c.Filters.JoinEUIs, List.length_map _ _,
   by decide⟩

set_option maxRecDepth 100000 in
/-- Witness of C5: the range `0000000000000000` to `00000000000000ff` followed
by a range that is not made of hex strings. -/
theorem join_euis_pair_order_witness :
    (∃ t r, T04 = t ++ '\n' :: "join_euis=[".toList ∧
      render joinEUIsExample =
        (tmplGeneral joinEUIsExample ++ tmplNetIDs joinEUIsExample).flatten ++ t ++
        '\n' :: (("join_euis=[".toList ++
          "\n  [\"0000000000000000\", \"00000000000000ff\"],".toList ++
          "\n  [\"zz\", \"y&#34;y\"],".toList ++ "\n]".toList) ++ '\n' :: r)) ∧
    (∃ before after,
      joinEUIsExample.Filters.JoinEUIs =
        before ++ ("0000000000000000".toList, "00000000000000ff".toList) :: after ∧
      joinEUIsExample.Filters.JoinEUIs.map renderedPair =
        before.map renderedPair ++
          "\n  [\"0000000000000000\", \"00000000000000ff\"],".toList ::
            after.map renderedPair) :=
  ⟨(join_euis_pair_order joinEUIsExample).1,
   (join_euis_pair_order joinEUIsExample).2.1 "0000000000000000".toList
     "00000000000000ff".toList (List.mem_cons_self _ _) (by decide) (by decide)⟩

/-- C6. Per-gateway overrides keep input order: when the fields of the override
records hold no rune the escaper rewrites, the text between the
`fake_rx_time` line and the `# Basic Station backend.` comment is a blank
line, the blocks of the records in input order (each a blank line, the header
`[[backend.semtech_udp.configuration]]` and the four assignment lines), and
two blank lines; the `[backend.semtech_udp]` header stands before and the
`[backend.basic_station]` header after, also when there is no record. -/
theorem configuration_blocks_in_order (c : RootConfig)
    (h : ∀ g ∈ c.Backend.SemtechUDP.Configuration, PlainRecord g) :
    ∃ a1 a2 r, render c =
      a1 ++ "\n  [backend.semtech_udp]\n".toList ++
      a2 ++ "\n  fake_rx_time=".toList ++ stringify (.bool c.Backend.SemtechUDP.FakeRxTime) ++
        "\n".toList ++
      ("\n".toList ++ (c.Backend.SemtechUDP.Configuration.map configurationBlock).flatten ++
        "\n\n".toList) ++
      "  # Basic Station backend.\n  [backend.basic_station]\n".toList ++ r :=
  render_configuration c h

set_option maxRecDepth 100000 in
/-- Witness of C6 with two records, and with none. -/
theorem configuration_blocks_in_order_witness :
    (∀ g ∈ overridesExample.Backend.SemtechUDP.Configuration, PlainRecord g) ∧
    (∃ a1 a2 r, render overridesExample =
      a1 ++ "\n  [backend.semtech_udp]\n".toList ++
      a2 ++ "\n  fake_rx_time=".toList ++ "false".toList ++ "\n".toList ++
      ("\n".toList ++
        ("\n    [[backend.semtech_udp.configuration]]\n".toList ++
         "    gateway_id=\"0102030405060708\"\n".toList ++
         "    base_file=\"/etc/a/global_conf.json\"\n".toList ++
         "    output_file=\"/etc/a/local_conf.json\"\n".toList ++
         "    restart_command=\"/etc/init.d/pf restart\"\n".toList ++
         "\n    [[backend.semtech_udp.configuration]]\n".toList ++
         "    gateway_id=\"0807060504030201\"\n".toList ++
         "    base_file=\"/etc/b/global_conf.json\"\n".toList ++
         "    output_file=\"/etc/b/local_conf.json\"\n".toList ++
         "    restart_command=\"/etc/init.d/pf restart\"\n".toList) ++
        "\n\n".toList) ++
      "  # Basic Station backend.\n  [backend.basic_station]\n".toList ++ r) ∧
    (∃ a1 a2 r, render zeroConfig =
      a1 ++ "\n  [backend.semtech_udp]\n".toList ++
      a2 ++ "\n  fake_rx_time=".toList ++ "false".toList ++ "\n".toList ++
      ("\n".toList ++ [] ++ "\n\n".toList) ++
      "  # Basic Station backend.\n  [backend.basic_station]\n".toList ++ r) :=
  ⟨by decide!, configuration_blocks_in_order overridesExample (by decide!),
   configuration_blocks_in_order zeroConfig (by decide)⟩

/-- C7. Static meta-data: for every entry `k`, `v` of `MetaData.Static` made
of letters, digits, `_`, `-`, `.`, `/`, the document holds the line `  k="v"`
after the `[meta_data.static]` header line and before the
`[meta_data.dynamic]` header line. -/
theorem static_meta_data_line (c : RootConfig) (k v : GoString)
    (hmem : (k, v) ∈ c.MetaData.Static) (hk : IsName k) (hv : IsName v) :
    LinesInOrder ["  [meta_data.static]".toList,
      "  ".toList ++ k ++ "=\"".toList ++ v ++ "\"".toList,
      "  [meta_data.dynamic]".toList] (render c) :=
  static_line_inOrder c k v hmem hk hv

/-- Witness of C7 with `MetaData.Static = {"serial_number": "A1B21234"}`. -/
theorem static_meta_data_line_witness :
    LinesInOrder ["  [meta_data.static]".toList,
      "  serial_number=\"A1B21234\"".toList,
      "  [meta_data.dynamic]".toList] (render staticExample) :=
  static_meta_data_line staticExample "serial_number".toList "A1B21234".toList
    (List.mem_cons_self _ _) (by decide) (by decide)

/-- C8. Named commands: for every entry of `Commands.Commands` whose name
and command are made of letters, digits, `_`, `-`, `.`, `/`, the document
holds, after the `[commands]` header line, the three consecutive lines
`  [commands.commands.name]`, `  max_execution_duration="D"` and
`  command="c"`, `D` being `Duration.String` of the duration; and when all
entries are such, the text written by the loop holds as many
`[commands.commands.` as there are entries. -/
theorem named_command_block (c : RootConfig) :
    (∀ (name : GoString) (cmd : NamedCommand), (name, cmd) ∈ c.Commands.Commands →
      IsName name → IsName cmd.Command →
      LinesInOrder ["[commands]".toList,
        linesBlock ["  [commands.commands.".toList ++ name ++ "]".toList,
          "  max_execution_duration=\"".toList ++ cmd.MaxExecutionDuration.String ++
            "\"".toList,
          "  command=\"".toList ++ cmd.Command ++ "\"".toList]] (render c)) ∧
    ((∀ kv ∈ c.Commands.Commands, IsName kv.1 ∧ IsName kv.2.Command) →
      countOccurrences "[commands.commands.".toList (tmplCommands c).flatten =
        c.Commands.Commands.length) :=
  ⟨command_block_inOrder c, commands_header_count c⟩

/-- Witness of C8 with `Commands.Commands = {"reboot": {1s, "/usr/bin/reboot"}}`. -/
theorem named_command_block_witness :
    LinesInOrder ["[commands]".toList,
      linesBlock ["  [commands.commands.reboot]".toList,
        "  max_execution_duration=\"1s\"".toList,
        "  command=\"/usr/bin/reboot\"".toList]] (render rebootExample) ∧
    countOccurrences "[commands.commands.".toList (tmplCommands rebootExample).flatten = 1 :=
  ⟨(named_command_block rebootExample).1 "reboot".toList ⟨⟨1000000000⟩, "/usr/bin/reboot".toList⟩
      (List.mem_cons_self _ _) (by decide) (by decide),
   (named_command_block rebootExample).2 (by decide)⟩

/-- C9. Byte-for-byte stability: two models with equal scalar fields, equal
ordered lists and the same associations in their mapping fields give the same
writes and the same document, whatever the order in which the entries of the
mappings were supplied. -/
theorem render_deterministic (c1 c2 : RootConfig) (h : SameContent c1 c2) :
    configTemplate c1 = configTemplate c2 ∧ render c1 = render c2 :=
  ⟨configTemplate_congr h, congrArg List.flatten (configTemplate_congr h)⟩

/-- Witness of C9: the static meta-data supplied as `a`, `b` and as `b`, `a`. -/
theorem render_deterministic_witness :
    staticAB.MetaData.Static ≠ staticBA.MetaData.Static ∧
    SameContent staticAB staticBA ∧
    configTemplate staticAB = configTemplate staticBA ∧ render staticAB = render staticBA :=
  have hs : SameContent staticAB staticBA :=
    { general := rfl, filters := rfl, backend := rfl, integration := rfl, metrics := rfl,
      executionInterval := rfl, maxExecutionDuration := rfl,
      static := ⟨by decide, by decide, fun kv => by
        simp only [staticAB, staticBA, List.mem_cons, List.mem_singleton, List.not_mem_nil,
          or_false]
        exact or_comm⟩,
      dynamicCommands := ⟨by decide, by decide, fun _ => Iff.rfl⟩,
      commands := ⟨by decide, by decide, fun _ => Iff.rfl⟩ }
  ⟨by decide, hs, render_deterministic staticAB staticBA hs⟩

/-- C10. The only failure is a sink failure: on a sink that accepts every
write the command returns nil after all the writes of the template, and what
a buffer holds then is the document; if the sink rejects a write, all earlier
ones being accepted, the command returns that error wrapped with the message
`execute config template error` and the rejected write is the last one
attempted; and an error of the command always is such a wrapped write error. -/
theorem configCmd_sink_failure {σ ε : Type} (w : Writer σ ε) (s : σ) (c : RootConfig) :
    ((∀ s1 p, ∃ s2, w.write s1 p = .ok s2) →
      ∃ s2, acceptAll w s (configTemplate c) = some s2 ∧
        configCmd w s c = ⟨configTemplate c, .ok s2⟩) ∧
    configCmd bufferWriter [] c = ⟨configTemplate c, .ok (render c)⟩ ∧
    (∀ pre p post s1 e, configTemplate c = pre ++ p :: post → acceptAll w s pre = some s1 →
      w.write s1 p = .error e →
      configCmd w s c = ⟨pre ++ [p], .error ⟨"execute config template error", e⟩⟩) ∧
    (∀ err, (configCmd w s c).result = .error err →
      ∃ pre p post s1 e, configTemplate c = pre ++ p :: post ∧
        acceptAll w s pre = some s1 ∧ w.write s1 p = .error e ∧
        (configCmd w s c).attempted = pre ++ [p] ∧
        err = ⟨"execute config template error", e⟩) :=
  ⟨configCmd_of_total w s c, configCmd_bufferWriter c, configCmd_of_reject w s c,
   configCmd_error_cases w s c⟩

/-- Witness of C10: the all-empty model on a buffer, and on a sink that is
closed after two writes. -/
theorem configCmd_sink_failure_witness :
    (∃ s2, acceptAll bufferWriter [] (configTemplate zeroConfig) = some s2 ∧
      configCmd bufferWriter [] zeroConfig = ⟨configTemplate zeroConfig, .ok s2⟩) ∧
    configCmd (closingWriter 2) 0 zeroConfig =
      ⟨[T00, "0".toList, T01],
        .error ⟨"execute config template error", "file already closed"⟩⟩ :=
  ⟨(configCmd_sink_failure bufferWriter [] zeroConfig).1 (fun s p => ⟨s ++ p, rfl⟩),
   (configCmd_sink_failure (closingWriter 2) 0 zeroConfig).2.2.1 [T00, "0".toList] T01
      ((configTemplate zeroConfig).drop 3) 2 "file already closed" (by decide!) rfl rfl⟩

end GatewayBridge
